import Mathlib

/-!
# jpmp-backend: order lifecycle engine and maintenance gate

A shallow embedding of `src/lib/db.js`, `src/middleware/maintenance.js`, `src/app.js`,
`src/routes/maintenance.js` and `src/routes/orders.js`.

Conventions of the embedding:

* Module-level variables (`maintenanceMode`, `isConnected`, `sql`) and the database
  contents are the fields of one explicit state `Sys`.
* A Koa middleware or route handler is a function `Ctx → Sys → Outcome`; an exception
  that leaves the handler is recorded in `Outcome.thrown`.
* A route handler is executed as one uninterrupted block: no other request is
  interleaved between its database round trips.
* An `async` function that is called without `await` is split at its `await` points:
  its synchronous prefix is one function, the rest is resumed explicitly.
* JSON numbers are integers; `undefined` is `none`.
-/

namespace Jpmp

/-! ## JavaScript values -/

/-- A parsed JSON document (a request body field or a JSONB column). -/
inductive Json where
  | null
  | bool (b : Bool)
  | num (n : Int)
  | str (s : String)
  | arr (elems : List Json)
  | obj (fields : List (String × Json))

/-- A JavaScript value obtained from parsed JSON; `none` is `undefined`. -/
abbrev JsVal := Option Json

/-- An exception object: `err.message` and the optional `err.status`. -/
structure JsError where
  message : String
  status : Option Nat
  deriving DecidableEq, Repr

/-- JavaScript truthiness, as used by `!x` and `x || y`. -/
def truthy : JsVal → Bool
  | none => false
  | some .null => false
  | some (.bool b) => b
  | some (.num n) => n != 0
  | some (.str s) => s != ""
  | some (.arr _) => true
  | some (.obj _) => true

/-- Strict equality `a === b`. Primitives compare by value. Objects and arrays compare
by reference, and the two operands of every `===` in the handlers come from different
parses (request body, database row, literal), so they are never the same reference. -/
def strictEq : JsVal → JsVal → Bool
  | none, none => true
  | some .null, some .null => true
  | some (.bool a), some (.bool b) => a == b
  | some (.num a), some (.num b) => a == b
  | some (.str a), some (.str b) => a == b
  | _, _ => false

/-- The error raised by a property read on `null`. -/
def nullPropertyError (key : String) : JsError :=
  { message := "Cannot read properties of null (reading " ++ key ++ ")", status := none }

/-- Property read `v.key` on a JSON value: throws on `null`, is `undefined` on a
primitive or an array (for the keys used here), and the field otherwise. -/
def Json.prop (v : Json) (key : String) : Except JsError JsVal :=
  match v with
  | .null => .error (nullPropertyError key)
  | .obj fields => .ok (fields.lookup key)
  | _ => .ok none

/-- Optional chaining `v?.id`. -/
def optChainId : JsVal → JsVal
  | none => none
  | some .null => none
  | some (.obj fields) => fields.lookup "id"
  | some _ => none

/-- The test `Array.isArray(v)`. -/
def isArray : JsVal → Bool
  | some (.arr _) => true
  | _ => false

/-- The operator `x || y`. -/
def jsOr (x : JsVal) (y : JsVal) : JsVal :=
  if truthy x then x else y

/-- The code points of the characters `parseInt` skips in front: the white space and
line terminator characters of JavaScript (tab, line feed, vertical tab, form feed,
carriage return, space, no-break space, the Unicode space separators, line and
paragraph separator, byte order mark). -/
def jsWhiteSpaceCodes : List Nat :=
  [0x09, 0x0A, 0x0B, 0x0C, 0x0D, 0x20, 0xA0, 0x1680, 0x2000, 0x2001, 0x2002, 0x2003, 0x2004,
   0x2005, 0x2006, 0x2007, 0x2008, 0x2009, 0x200A, 0x2028, 0x2029, 0x202F, 0x205F, 0x3000,
   0xFEFF]

/-- The character is JavaScript white space or a line terminator. -/
def isJsWhiteSpace (c : Char) : Bool :=
  jsWhiteSpaceCodes.contains c.toNat

/-- The number of binary digits of `n`, computed with `fuel` halvings at most. -/
def bitLengthAux : Nat → Nat → Nat
  | 0, _ => 0
  | fuel + 1, n => if n = 0 then 0 else bitLengthAux fuel (n / 2) + 1

/-- The number of binary digits of `n`. -/
def bitLength (n : Nat) : Nat :=
  bitLengthAux n n

/-- The JavaScript number (a double) nearest to the natural number `n`, ties to even:
exact below `2 ^ 53`, otherwise `n` rounded to 53 significant binary digits. A value
that rounds beyond the largest double is `Infinity`, which is represented by
`2 ^ 1024`, a magnitude no finite double has. -/
def roundToDouble (n : Nat) : Nat :=
  if n < 2 ^ 53 then n
  else
    let e := bitLength n - 53
    let q := n / 2 ^ e
    let r := n % 2 ^ e
    let half := 2 ^ (e - 1)
    let q1 := if half < r || (r == half && q % 2 == 1) then q + 1 else q
    min (q1 * 2 ^ e) (2 ^ 1024)

/-- The call `parseInt(s, 10)`; `none` is `NaN`. Leading white space, an optional sign,
then the longest run of decimal digits, read as a double. -/
def parseInt10 (s : String) : Option Int :=
  let cs := s.toList.dropWhile isJsWhiteSpace
  let signed : Bool × List Char :=
    match cs with
    | '-' :: t => (true, t)
    | '+' :: t => (false, t)
    | _ => (false, cs)
  let ds := signed.2.takeWhile Char.isDigit
  if ds.isEmpty then none
  else
    let n : Nat := roundToDouble (ds.foldl (fun acc c => acc * 10 + (c.toNat - 48)) 0)
    some (if signed.1 then -(n : Int) else (n : Int))

/-! ## Data model -/

/-- The `kiosk_type` enum. -/
inductive KioskType where
  | sweet
  | juice
  deriving DecidableEq, Repr

/-- The `kiosk_role` enum. -/
inductive KioskRole where
  | order
  | fulfill
  | customize
  deriving DecidableEq, Repr

/-- The `order_status` enum. -/
inductive OrderStatus where
  | pending
  | completed
  | canceled
  deriving DecidableEq, Repr

/-- The `item_type` enum. -/
inductive ItemType where
  | sweet
  | juice
  | gift
  deriving DecidableEq, Repr

/-- Modelled from the spec: a row of table `items` (the schema file `db/schema.sql` is
not part of the sources; the columns are those of the data model and of the queries). -/
structure Item where
  id : Int
  slug : String
  kiosk_type : KioskType
  item_type : ItemType
  name : String
  description : String
  available : Bool
  created_at : Int

/-- Modelled from the spec: a row of table `kiosks`. -/
structure Kiosk where
  id : Int
  type : KioskType
  role : KioskRole
  enabled : Bool
  nickname : Option String
  app_version : Option String
  app_platform : Option String
  client_kiosk_id : Option Int
  created_at : Int

/-- Modelled from the spec: a row of table `orders`; `created_at` is in milliseconds
and a SQL NULL document is `Json.null`. -/
structure Order where
  id : Int
  kiosk_id : Int
  kiosk_type : KioskType
  status : OrderStatus
  user_profile : Json
  survey_response : Json
  created_at : Int

/-- Modelled from the spec: a row of table `order_items`. -/
structure OrderItem where
  order_id : Int
  item_id : Int
  customizations : Json

/-- Modelled from the spec: the database, with the sequence that numbers new orders. -/
structure Db where
  items : List Item
  kiosks : List Kiosk
  orders : List Order
  order_items : List OrderItem
  nextOrderId : Int

/-! ## Process state (`lib/db.js`, `middleware/maintenance.js`) -/

/-- The connection pool held in `sql`: which call of `postgres(dbConfig)` made it and
whether `sql.end` was called on it. -/
structure Pool where
  serial : Nat
  ended : Bool
  deriving DecidableEq, Repr

/-- The module variables `maintenanceMode`, `sql`, `isConnected` and the database. -/
structure Sys where
  maintenanceMode : Bool
  sql : Pool
  isConnected : Bool
  db : Db

/-- The state at start-up: `maintenanceMode = false`, a fresh pool, `isConnected = true`. -/
def Sys.init (db : Db) : Sys :=
  { maintenanceMode := false, sql := { serial := 0, ended := false }, isConnected := true, db := db }

/-- The error thrown by `getConnection` while disconnected. -/
def dbDisconnectedError : JsError :=
  { message := "Database is disconnected for maintenance", status := none }

/-- The error a query gets from a pool on which `end` was called. -/
def connectionEndedError : JsError :=
  { message := "write CONNECTION_ENDED", status := none }

/-- The function `getConnection()` of `lib/db.js`. -/
def getConnection (s : Sys) : Except JsError Pool :=
  if !s.isConnected then .error dbDisconnectedError else .ok s.sql

/-- A statement sent through `getSql()`: `getConnection()` may throw, and an ended pool
rejects the statement; otherwise the statement sees the database. -/
def query (s : Sys) : Except JsError Db :=
  match getConnection s with
  | .error e => .error e
  | .ok pool => if pool.ended then .error connectionEndedError else .ok s.db

/-- The function `reconnectDatabase()`: its body has no `await`, so it runs in one piece. -/
def reconnectDatabase (s : Sys) : Sys :=
  if !s.isConnected then
    { s with sql := { serial := s.sql.serial + 1, ended := false }, isConnected := true }
  else s

/-- The function `disconnectDatabase()` up to its `await sql.end(...)`: the result says whether the
function is suspended there (`true`) or has already finished (`false`). -/
def disconnectDatabaseBegin (s : Sys) : Bool × Sys :=
  if s.isConnected then (true, { s with sql := { s.sql with ended := true } })
  else (false, s)

/-- The function `disconnectDatabase()` after `sql.end(...)` resolved: `isConnected = false`. -/
def disconnectDatabaseFinish (s : Sys) : Sys :=
  { s with isConnected := false }

/-- The function `getMaintenanceMode()`. -/
def getMaintenanceMode (s : Sys) : Bool :=
  s.maintenanceMode

/-- Where a call of `setMaintenanceMode(enabled)` stands. -/
inductive SetModeTask where
  | awaitingEnd (enabled : Bool)
  | awaitingDisconnect (enabled : Bool)
  | awaitingReconnect (enabled : Bool)
  | returned (value : Bool)
  | rejected (err : JsError)
  deriving DecidableEq, Repr

/-- The synchronous prefix of `setMaintenanceMode(enabled)`: everything up to the first
`await` that suspends it. -/
def setMaintenanceMode (enabled : Bool) (s : Sys) : SetModeTask × Sys :=
  if enabled = s.maintenanceMode then (.returned s.maintenanceMode, s)
  else if enabled then
    match disconnectDatabaseBegin s with
    | (true, s1) => (.awaitingEnd enabled, s1)
    | (false, s1) => (.awaitingDisconnect enabled, s1)
  else (.awaitingReconnect enabled, reconnectDatabase s)

/-- One resumption of a suspended `setMaintenanceMode` call. `endResult` is how
`sql.end(...)` settles: `none` resolved, `some e` rejected with `e`. -/
def SetModeTask.resume (endResult : Option JsError) (t : SetModeTask) (s : Sys) :
    SetModeTask × Sys :=
  match t with
  | .awaitingEnd enabled =>
    match endResult with
    | none => (.awaitingDisconnect enabled, disconnectDatabaseFinish s)
    | some e => (.rejected e, s)
  | .awaitingDisconnect enabled =>
    (.returned enabled, { s with maintenanceMode := enabled })
  | .awaitingReconnect enabled =>
    (.returned enabled, { s with maintenanceMode := enabled })
  | .returned v => (.returned v, s)
  | .rejected e => (.rejected e, s)

/-- The value of `await setMaintenanceMode(enabled)`: the call run to completion with
nothing interleaved (the longest path has two suspensions). -/
def setMaintenanceModeAwaited (endResult : Option JsError) (enabled : Bool) (s : Sys) :
    Except JsError Bool × Sys :=
  let r0 := setMaintenanceMode enabled s
  let r1 := r0.1.resume endResult r0.2
  let r2 := r1.1.resume endResult r1.2
  match r2.1 with
  | .returned v => (.ok v, r2.2)
  | .rejected e => (.error e, r2.2)
  | _ => (.error { message := "pending", status := none }, r2.2)

/-! ## Koa context and responses -/

/-- A line item as returned with an order: `oi.*`, `i.name`, `i.description`. -/
structure OrderItemView where
  order_id : Int
  item_id : Int
  customizations : Json
  name : String
  description : String

/-- An order row with its `items` attached. -/
structure OrderView where
  order : Order
  items : List OrderItemView

/-- The response bodies of the handlers embedded here. -/
inductive Body where
  | error (message : String) (status : Option Nat)
  | message (text : String)
  | enabled (flag : Bool)
  | order (o : OrderView)
  | orders (os : List OrderView)
  | kiosk (k : Kiosk) (currentOrder : Option OrderView)
  | kioskOnly (k : Kiosk)
  | kiosks (ks : List Kiosk)
  | emptyObject

/-- The part of the Koa context the handlers touch. `explicitStatus` is Koa's record
that `ctx.status` was assigned. -/
structure Ctx where
  path : String
  status : Nat
  explicitStatus : Bool
  body : Option Body

/-- A context before any middleware ran: Koa's default status is 404. -/
def Ctx.fresh (path : String) : Ctx :=
  { path := path, status := 404, explicitStatus := false, body := none }

/-- The assignment `ctx.status = n`. -/
def Ctx.setStatus (c : Ctx) (n : Nat) : Ctx :=
  { c with status := n, explicitStatus := true }

/-- The assignment `ctx.body = b`: Koa sets the status to 200 unless one was assigned. -/
def Ctx.setBody (c : Ctx) (b : Body) : Ctx :=
  { c with body := some b, status := if c.explicitStatus then c.status else 200 }

/-- The message of an error body. -/
def Body.errorMessage? : Body → Option String
  | .error m _ => some m
  | _ => none

/-- The `status` field of an error body. -/
def Body.errorStatus? : Body → Option Nat
  | .error _ st => st
  | _ => none

/-- The text of a `{ message }` body. -/
def Body.messageText? : Body → Option String
  | .message t => some t
  | _ => none

/-- The flag of an `{ enabled }` body. -/
def Body.enabledFlag? : Body → Option Bool
  | .enabled b => some b
  | _ => none

/-- The order of an `{ order }` body. -/
def Body.order? : Body → Option OrderView
  | .order o => some o
  | _ => none

/-- What a middleware or handler leaves behind. -/
structure Outcome where
  ctx : Ctx
  sys : Sys
  thrown : Option JsError

/-- A Koa middleware body with its `next` already bound, or a route handler. -/
abbrev Handler := Ctx → Sys → Outcome

/-! ## `middleware/maintenance.js` and `app.js` -/

/-- The function `isMaintenanceEndpoint(path)`. -/
def isMaintenanceEndpoint (path : String) : Bool :=
  path == "/maintenance" || path == "/maintenance/"

/-- The fixed message of the maintenance response. -/
def maintenanceMessage : String :=
  "Service temporarily unavailable due to maintenance. Database is disconnected."

/-- The two assignments that produce the 503 maintenance response. -/
def maintenanceResponse (c : Ctx) : Ctx :=
  (c.setStatus 503).setBody (.error maintenanceMessage (some 503))

/-- The function `maintenanceMiddleware(ctx, next)`. -/
def maintenanceMiddleware (next : Handler) : Handler := fun ctx s =>
  if isMaintenanceEndpoint ctx.path then next ctx s
  else if s.maintenanceMode then
    { ctx := maintenanceResponse ctx, sys := s, thrown := none }
  else
    let r := next ctx s
    match r.thrown with
    | none => r
    | some err =>
      if err.message = "Database is disconnected for maintenance" then
        { ctx := maintenanceResponse r.ctx, sys := r.sys, thrown := none }
      else r

/-- The error handling middleware of `app.js`. -/
def errorMiddleware (next : Handler) : Handler := fun ctx s =>
  let r := next ctx s
  match r.thrown with
  | none => r
  | some err =>
    let st : Nat := match err.status with
      | some n => if n = 0 then 500 else n
      | none => 500
    let c1 := r.ctx.setStatus st
    { ctx := c1.setBody (.error err.message (some c1.status)), sys := r.sys, thrown := none }

/-- The middleware stack of `app.js` in registration order, around the matched route:
`maintenanceMiddleware`, then the error handling middleware, then the router
(`cors()` and `bodyParser()` in front pass the request on). -/
def app (route : Handler) : Handler :=
  maintenanceMiddleware (errorMiddleware route)

/-! ## `routes/maintenance.js` -/

/-- The handler of `GET /maintenance`. -/
def getMaintenance : Handler := fun ctx s =>
  { ctx := ctx.setBody (.enabled (getMaintenanceMode s)), sys := s, thrown := none }

/-- The handler of `POST /maintenance` with `enabled` the field of the request body. The handler calls
`setMaintenanceMode(enabled)` without `await`: only its synchronous prefix has run when
the next statement reads the flag. -/
def postMaintenance (enabled : JsVal) : Handler := fun ctx s =>
  match enabled with
  | some (.bool b) =>
    let started := setMaintenanceMode b s
    { ctx := ctx.setBody (.enabled (getMaintenanceMode started.2)), sys := started.2, thrown := none }
  | _ =>
    { ctx := (ctx.setStatus 400).setBody (.error "enabled must be a boolean" (some 400)),
      sys := s, thrown := none }

/-! ## `routes/orders.js`: deletion -/

/-- The handler of `DELETE /orders/:id`. The `return` after the 404 assignments leaves only the
transaction callback; the two assignments after `begin` run in every case. -/
def deleteOrder (idParam : String) : Handler := fun ctx s =>
  match parseInt10 idParam with
  | none =>
    { ctx := (ctx.setStatus 400).setBody (.error "Invalid order ID" none), sys := s, thrown := none }
  | some id =>
    match query s with
    | .error e => { ctx := ctx, sys := s, thrown := some e }
    | .ok db =>
      let db1 : Db := { db with order_items := db.order_items.filter (fun oi => oi.order_id != id) }
      let deleted := db1.orders.filter (fun o => o.id == id)
      let db2 : Db := { db1 with orders := db1.orders.filter (fun o => o.id != id) }
      let ctx1 : Ctx :=
        match deleted.head? with
        | none => (ctx.setStatus 404).setBody (.error "Order not found" none)
        | some _ => ctx
      { ctx := (ctx1.setStatus 200).setBody (.message "Order deleted successfully"),
        sys := { s with db := db2 }, thrown := none }

/-! ## `routes/orders.js`: creation -/

/-- The destructured body of `POST /orders`. -/
structure CreateOrderBody where
  kiosk_id : JsVal
  items : JsVal
  user_profile : JsVal
  status : JsVal

/-- The error of a statement whose parameter the database cannot read as an integer
(the wording of database errors is not modelled). -/
def invalidIntegerError : JsError :=
  { message := "invalid input syntax for type integer", status := none }

/-- How a bound parameter compared with an integer column is read: a number as it is,
a string by its decimal notation, anything else makes the statement fail. -/
def pgInteger : JsVal → Except JsError Int
  | some (.num n) => .ok n
  | some (.str t) =>
    match t.toInt? with
    | some n => .ok n
    | none => .error invalidIntegerError
  | _ => .error invalidIntegerError

/-- The elements of `items` once it is known to be an array. -/
def arrayElems : JsVal → List Json
  | some (.arr elems) => elems
  | _ => []

/-- The loop "Validate items structure": `true` when it meets an element with a falsy
`id`; reading `id` of a `null` element throws. -/
def itemsMissingId : List Json → Except JsError Bool
  | [] => .ok false
  | item :: rest =>
    match item.prop "id" with
    | .error e => .error e
    | .ok v => if !truthy v then .ok true else itemsMissingId rest

/-- The first row of `SELECT * FROM kiosks WHERE id = ...`. -/
def findKiosk (db : Db) (kid : Int) : Option Kiosk :=
  db.kiosks.find? (fun k => k.id == kid)

/-- The row of highest `id` in a list of orders. -/
def maxById : List Order → Option Order
  | [] => none
  | o :: rest =>
    match maxById rest with
    | none => some o
    | some best => if best.id < o.id then some o else some best

/-- The query for `recentOrder`: `WHERE o.kiosk_id = ... ORDER BY o.id DESC LIMIT 1`. -/
def recentOrder (db : Db) (kid : Int) : Option Order :=
  maxById (db.orders.filter (fun o => o.kiosk_id == kid))

/-- The query that attaches `items` to an order:
`SELECT oi.*, i.name, i.description FROM order_items oi JOIN items i ON oi.item_id = i.id
WHERE oi.order_id = ...`. -/
def orderItemViews (db : Db) (orderId : Int) : List OrderItemView :=
  (db.order_items.filter (fun oi => oi.order_id == orderId)).flatMap fun oi =>
    (db.items.filter (fun i => i.id == oi.item_id)).map fun i =>
      { order_id := oi.order_id, item_id := oi.item_id, customizations := oi.customizations,
        name := i.name, description := i.description }

/-- The duplicate check: the recent order when it is at most 30000 ms old and
`user_profile?.id` of the request is `===` to that of the stored profile. -/
def duplicateOrder (now : Int) (body : CreateOrderBody) (db : Db) (kid : Int) : Option Order :=
  match recentOrder db kid with
  | none => none
  | some recent =>
    let orderAge := now - recent.created_at
    let isWithin30Seconds : Bool := decide (orderAge ≤ 30000)
    let requestUserId := optChainId body.user_profile
    let existingUserId := optChainId (some recent.user_profile)
    let sameUser := strictEq requestUserId existingUserId
    if isWithin30Seconds && sameUser then some recent else none

/-- The catalog lookup of one submitted `id`: a string by slug, a number by identifier
(any other value makes the statement fail). The text is how the `id` is printed inside
the error messages. -/
def lookupItem (db : Db) : JsVal → Except JsError (String × Option Item)
  | some (.str slug) => .ok (slug, db.items.find? (fun i => i.slug == slug))
  | some (.num n) => .ok (toString n, db.items.find? (fun i => i.id == n))
  | _ => .error invalidIntegerError

/-- What the loop "Validate items exist and are available" ends with. -/
inductive ItemCheck where
  | resolved (pairs : List (Json × Int))
  | notFound (shown : String)
  | outOfStock (shown : String)
  | thrown (e : JsError)

/-- The loop "Validate items exist and are available": it stops at the first element
that is not found or not available; otherwise every element is paired with its
`dbId`. -/
def resolveItems (db : Db) : List Json → ItemCheck
  | [] => .resolved []
  | item :: rest =>
    match item.prop "id" with
    | .error e => .thrown e
    | .ok idv =>
      match lookupItem db idv with
      | .error e => .thrown e
      | .ok (shown, none) => .notFound shown
      | .ok (shown, some dbItem) =>
        if !dbItem.available then .outOfStock shown
        else
          match resolveItems db rest with
          | .resolved pairs => .resolved ((item, dbItem.id) :: pairs)
          | other => other

/-- The cast of a bound string to `order_status`. -/
def OrderStatus.ofJsVal? : JsVal → Option OrderStatus
  | some (.str "pending") => some .pending
  | some (.str "completed") => some .completed
  | some (.str "canceled") => some .canceled
  | _ => none

/-- The error of a failed enum cast. -/
def invalidEnumError : JsError :=
  { message := "invalid input value for enum", status := none }

/-- The value bound for a JSON column: `v === undefined ? null : v`. -/
def orNull (v : JsVal) : Json :=
  match v with
  | none => .null
  | some j => j

/-- The value bound for `customizations` of one submitted element:
`item.customizations === undefined ? null : item.customizations`. -/
def givenCustomizations (item : Json) : Json :=
  match item.prop "customizations" with
  | .ok v => orNull v
  | .error _ => .null

/-- The `order_items` row inserted for one submitted element. -/
def orderItemRow (orderId : Int) (pair : Json × Int) : OrderItem :=
  { order_id := orderId, item_id := pair.2, customizations := givenCustomizations pair.1 }

/-- The transaction of `POST /orders`: insert the order, insert one line item per
submitted element, read the order back with its items. An exception rolls back. -/
def insertOrderTx (now : Int) (body : CreateOrderBody) (kid : Int) (kiosk : Kiosk)
    (pairs : List (Json × Int)) (db : Db) : Except JsError (Db × OrderView) :=
  match OrderStatus.ofJsVal? (jsOr body.status (some (.str "pending"))) with
  | none => .error invalidEnumError
  | some orderStatus =>
    let newOrder : Order :=
      { id := db.nextOrderId, kiosk_id := kid, kiosk_type := kiosk.type, status := orderStatus,
        user_profile := orNull body.user_profile, survey_response := .null, created_at := now }
    let db1 : Db := { db with orders := db.orders ++ [newOrder], nextOrderId := db.nextOrderId + 1 }
    let db2 : Db := { db1 with order_items := db1.order_items ++ pairs.map (orderItemRow newOrder.id) }
    match db2.orders.find? (fun o => o.id == newOrder.id) with
    | none => .error (nullPropertyError "items")
    | some completeOrder =>
      .ok (db2, { order := completeOrder, items := orderItemViews db2 newOrder.id })

/-- The part of `POST /orders` after the duplicate check: item validation, then the
transaction and the 201 response. -/
def placeOrder (now : Int) (body : CreateOrderBody) (kid : Int) (kiosk : Kiosk) (db : Db) :
    Handler := fun ctx s =>
  match resolveItems db (arrayElems body.items) with
  | .thrown e => { ctx := ctx, sys := s, thrown := some e }
  | .notFound shown =>
    { ctx := (ctx.setStatus 404).setBody (.error ("Item " ++ shown ++ " not found") none),
      sys := s, thrown := none }
  | .outOfStock shown =>
    { ctx := (ctx.setStatus 410).setBody (.error ("Item " ++ shown ++ " is out of stock") none),
      sys := s, thrown := none }
  | .resolved pairs =>
    match insertOrderTx now body kid kiosk pairs db with
    | .error e => { ctx := ctx, sys := s, thrown := some e }
    | .ok (db2, order) =>
      { ctx := (ctx.setStatus 201).setBody (.order order), sys := { s with db := db2 },
        thrown := none }

/-- The handler of `POST /orders`; `now` is `Date.now()` and the creation time of a new row. -/
def createOrder (now : Int) (body : CreateOrderBody) : Handler := fun ctx s =>
  if !truthy body.kiosk_id || !truthy body.items || !isArray body.items
      || (arrayElems body.items).length == 0 then
    { ctx := (ctx.setStatus 400).setBody (.error "kiosk_id and items array are required" none),
      sys := s, thrown := none }
  else if !strictEq body.status none && !strictEq body.status (some (.str "completed")) then
    { ctx := (ctx.setStatus 400).setBody
        (.error "Status can only be undefined or \"completed\"" none),
      sys := s, thrown := none }
  else
    match itemsMissingId (arrayElems body.items) with
    | .error e => { ctx := ctx, sys := s, thrown := some e }
    | .ok true =>
      { ctx := (ctx.setStatus 400).setBody (.error "Each item must have an id" none),
        sys := s, thrown := none }
    | .ok false =>
      match query s with
      | .error e => { ctx := ctx, sys := s, thrown := some e }
      | .ok db =>
        match pgInteger body.kiosk_id with
        | .error e => { ctx := ctx, sys := s, thrown := some e }
        | .ok kid =>
          match findKiosk db kid with
          | none =>
            { ctx := (ctx.setStatus 400).setBody (.error "Invalid kiosk ID" none),
              sys := s, thrown := none }
          | some kiosk =>
            match duplicateOrder now body db kid with
            | some recent =>
              { ctx := (ctx.setStatus 201).setBody
                  (.order { order := recent, items := orderItemViews db recent.id }),
                sys := s, thrown := none }
            | none => placeOrder now body kid kiosk db ctx s

/-! ## `routes/orders.js`: update -/

/-- The destructured body of `PATCH /orders/:id`. -/
structure UpdateOrderBody where
  status : JsVal
  survey_response : JsVal

/-- One element of `updates`: the column, the number after `$`, and the cast, if any. -/
structure SetClause where
  column : String
  placeholder : Nat
  cast : Option String
  deriving DecidableEq, Repr

/-- The text pushed onto `updates` for one clause, such as `status = $1::order_status`. -/
def SetClause.render (c : SetClause) : String :=
  c.column ++ " = $" ++ toString c.placeholder ++
    (match c.cast with
     | some t => "::" ++ t
     | none => "")

/-- The test `['pending', 'completed', 'canceled'].includes(v)`. -/
def orderStatusIncludes (v : Json) : Bool :=
  match v with
  | .str t => t == "pending" || t == "completed" || t == "canceled"
  | _ => false

/-- The test `typeof v !== 'object' || Array.isArray(v)` on a value that is not `null`. -/
def notPlainObject (v : Json) : Bool :=
  match v with
  | .obj _ => false
  | _ => true

/-- What the section "Build update fields" ends with. -/
inductive UpdateBuild where
  | rejected (message : String)
  | built (updates : List SetClause) (values : List Json)

/-- The block `if (status !== undefined)`, starting from given `updates` and `values`. -/
def pushStatus (body : UpdateOrderBody) (updates : List SetClause) (values : List Json) :
    UpdateBuild :=
  match body.status with
  | none => .built updates values
  | some st =>
    if !orderStatusIncludes st then .rejected "Invalid order status"
    else
      .built (updates ++ [{ column := "status", placeholder := values.length + 1,
                            cast := some "order_status" }])
        (values ++ [st])

/-- The test `v !== null && (typeof v !== 'object' || Array.isArray(v))`. -/
def surveyResponseInvalid (v : Json) : Bool :=
  match v with
  | .null => false
  | other => notPlainObject other

/-- The block `if (survey_response !== undefined)`. -/
def pushSurveyResponse (body : UpdateOrderBody) (updates : List SetClause)
    (values : List Json) : UpdateBuild :=
  match body.survey_response with
  | none => .built updates values
  | some sr =>
    if surveyResponseInvalid sr then
      .rejected "survey_response must be a JSON object or null"
    else
      .built (updates ++ [{ column := "survey_response", placeholder := values.length + 1,
                            cast := none }])
        (values ++ [sr])

/-- The section "Build update fields" of `PATCH /orders/:id`, with the final test
`updates.length === 0`. -/
def buildOrderUpdate (body : UpdateOrderBody) : UpdateBuild :=
  match pushStatus body [] [] with
  | .rejected m => .rejected m
  | .built u1 v1 =>
    match pushSurveyResponse body u1 v1 with
    | .rejected m => .rejected m
    | .built u2 v2 =>
      if u2.length == 0 then .rejected "No fields to update" else .built u2 v2

/-- The statement text of the update: the `SET` list joined by a comma, and the
`WHERE` placeholder `values.length + 1`. -/
def renderOrderUpdate (updates : List SetClause) (values : List Json) : String :=
  "\n    UPDATE orders\n    SET " ++ ", ".intercalate (updates.map SetClause.render) ++
    "\n    WHERE id = $" ++ toString (values.length + 1) ++ "\n    RETURNING *\n  "

/-- The error of a statement that names a column the table does not have or a
placeholder without a parameter. -/
def statementError : JsError :=
  { message := "invalid statement", status := none }

/-- The effect of one `SET` clause on a row of `orders`: the column receives the
parameter its placeholder points to. -/
def applySetClause (params : List Json) (row : Order) (c : SetClause) : Except JsError Order :=
  match params[c.placeholder - 1]? with
  | none => .error statementError
  | some v =>
    if c.placeholder = 0 then .error statementError
    else if c.column = "status" then
      match OrderStatus.ofJsVal? (some v) with
      | some st => .ok { row with status := st }
      | none => .error invalidEnumError
    else if c.column = "survey_response" then .ok { row with survey_response := v }
    else .error statementError

/-- All `SET` clauses applied to a row, left to right. -/
def applySetClauses (params : List Json) (row : Order) :
    List SetClause → Except JsError Order
  | [] => .ok row
  | c :: rest =>
    match applySetClause params row c with
    | .error e => .error e
    | .ok row1 => applySetClauses params row1 rest

/-- The rows of `orders` after `UPDATE orders SET ... WHERE id = ...`, with the updated
rows (`RETURNING *`). -/
def updateRows (params : List Json) (updates : List SetClause) (id : Int) :
    List Order → Except JsError (List Order × List Order)
  | [] => .ok ([], [])
  | row :: rest =>
    match updateRows params updates id rest with
    | .error e => .error e
    | .ok (rows, returned) =>
      if row.id == id then
        match applySetClauses params row updates with
        | .error e => .error e
        | .ok row1 => .ok (row1 :: rows, row1 :: returned)
      else .ok (row :: rows, returned)

/-- The execution of the built statement with the parameter list `params`: the
`WHERE` placeholder selects the parameter that is compared with `id`. -/
def execOrderUpdate (db : Db) (updates : List SetClause) (wherePlaceholder : Nat)
    (params : List Json) : Except JsError (Db × List Order) :=
  if wherePlaceholder = 0 then .error statementError
  else
    match pgInteger params[wherePlaceholder - 1]? with
    | .error e => .error e
    | .ok id =>
      match updateRows params updates id db.orders with
      | .error e => .error e
      | .ok (rows, returned) => .ok ({ db with orders := rows }, returned)

/-- The handler of `PATCH /orders/:id`. -/
def updateOrder (idParam : String) (body : UpdateOrderBody) : Handler := fun ctx s =>
  match parseInt10 idParam with
  | none =>
    { ctx := (ctx.setStatus 400).setBody (.error "Invalid order ID" none), sys := s, thrown := none }
  | some id =>
    match buildOrderUpdate body with
    | .rejected m =>
      { ctx := (ctx.setStatus 400).setBody (.error m none), sys := s, thrown := none }
    | .built updates values =>
      match query s with
      | .error e => { ctx := ctx, sys := s, thrown := some e }
      | .ok db =>
        match execOrderUpdate db updates (values.length + 1) (values ++ [.num id]) with
        | .error e => { ctx := ctx, sys := s, thrown := some e }
        | .ok (db1, returned) =>
          match returned.head? with
          | none =>
            { ctx := (ctx.setStatus 404).setBody (.error "Order not found" none),
              sys := { s with db := db1 }, thrown := none }
          | some order =>
            { ctx := ctx.setBody (.order { order := order, items := orderItemViews db1 order.id }),
              sys := { s with db := db1 }, thrown := none }

/-! ## `routes/orders.js`: queries -/

/-- The test `isNaN(latestNum) || latestNum < 1` under `latest !== undefined`. -/
def latestInvalid (latest : Option String) : Bool :=
  match latest with
  | none => false
  | some l =>
    match parseInt10 l with
    | none => true
    | some n => decide (n < 1)

/-- The error of a statement whose `LIMIT` the database cannot take. -/
def limitError : JsError :=
  { message := "invalid LIMIT", status := none }

/-- The rows cut by `LIMIT parseInt(latest, 10)`; without `latest` there is no limit.
The database reads the limit as a 64-bit integer: `NaN`, a negative value, and a value
of `2 ^ 63` or more make the statement fail. From `2 ^ 53` on, the digits JavaScript
prints for the double need not denote its exact value; no table holds that many rows,
so such a limit cuts nothing. -/
def applyLimit (latest : Option String) (rows : List Order) : Except JsError (List Order) :=
  match latest with
  | none => .ok rows
  | some l =>
    match parseInt10 l with
    | none => .error limitError
    | some n =>
      if n < 0 ∨ 2 ^ 63 ≤ n then .error limitError
      else if 2 ^ 53 ≤ n then .ok rows
      else .ok (rows.take n.toNat)

/-- The rows in the order of `ORDER BY o.created_at DESC`. -/
def newestFirst (rows : List Order) : List Order :=
  rows.insertionSort (fun a b => b.created_at ≤ a.created_at)

/-- The loop that attaches `items` to every returned order. -/
def hydrateAll (db : Db) (rows : List Order) : List OrderView :=
  rows.map (fun o => { order := o, items := orderItemViews db o.id })

/-- The cast of a validated `kiosk_type` string. -/
def KioskType.ofString? (t : String) : Option KioskType :=
  if t = "sweet" then some .sweet
  else if t = "juice" then some .juice
  else none

/-- The cast of a validated status string. -/
def OrderStatus.ofString? (t : String) : Option OrderStatus :=
  OrderStatus.ofJsVal? (some (.str t))

/-- The test `kioskType !== undefined && !['sweet', 'juice'].includes(kioskType)`. -/
def kioskTypeInvalid (kioskType : Option String) : Bool :=
  match kioskType with
  | none => false
  | some k => !(k == "sweet" || k == "juice")

/-- The `WHERE` clause of `GET /orders`: the conditions that were pushed, joined by
`AND`. `userMatches` is how the database evaluates the condition on
`o.user_profile->>'id'` for the given `user` value. -/
def listCondition (userMatches : String → Order → Bool) (userId kioskType : Option String)
    (o : Order) : Bool :=
  (match userId with
    | none => true
    | some u => userMatches u o) &&
  (match kioskType with
    | none => true
    | some k => decide (some o.kiosk_type = KioskType.ofString? k))

/-- The handler of `GET /orders`. The statement is assembled as text and its meaning
is taken here (the items of this route also carry `slug` and `available`, which the
response model leaves out). -/
def listOrders (userMatches : String → Order → Bool) (latest userId kioskType : Option String) :
    Handler := fun ctx s =>
  if latestInvalid latest then
    { ctx := (ctx.setStatus 400).setBody
        (.error "latest parameter must be a positive integer" none),
      sys := s, thrown := none }
  else if kioskTypeInvalid kioskType then
    { ctx := (ctx.setStatus 400).setBody
        (.error "kiosk_type must be either \"sweet\" or \"juice\"" none),
      sys := s, thrown := none }
  else
    match query s with
    | .error e => { ctx := ctx, sys := s, thrown := some e }
    | .ok db =>
      let matching := db.orders.filter (listCondition userMatches userId kioskType)
      match applyLimit latest (newestFirst matching) with
      | .error e => { ctx := ctx, sys := s, thrown := some e }
      | .ok orders =>
        { ctx := ctx.setBody (.orders (hydrateAll db orders)), sys := s, thrown := none }

/-- The handler of `GET /orders/status/:status`. -/
def listOrdersByStatus (status : String) (latest : Option String) : Handler := fun ctx s =>
  if !orderStatusIncludes (.str status) then
    { ctx := (ctx.setStatus 400).setBody (.error "Invalid order status" none),
      sys := s, thrown := none }
  else if latestInvalid latest then
    { ctx := (ctx.setStatus 400).setBody
        (.error "latest parameter must be a positive integer" none),
      sys := s, thrown := none }
  else
    match query s with
    | .error e => { ctx := ctx, sys := s, thrown := some e }
    | .ok db =>
      let matching := db.orders.filter fun o =>
        decide (some o.status = OrderStatus.ofString? status)
      match applyLimit latest (newestFirst matching) with
      | .error e => { ctx := ctx, sys := s, thrown := some e }
      | .ok orders =>
        { ctx := ctx.setBody (.orders (hydrateAll db orders)), sys := s, thrown := none }

/-- The handler of `GET /orders/:id`. -/
def getOrder (idParam : String) : Handler := fun ctx s =>
  match parseInt10 idParam with
  | none =>
    { ctx := (ctx.setStatus 400).setBody (.error "Invalid order ID" none), sys := s, thrown := none }
  | some id =>
    match query s with
    | .error e => { ctx := ctx, sys := s, thrown := some e }
    | .ok db =>
      match db.orders.find? (fun o => o.id == id) with
      | none =>
        { ctx := (ctx.setStatus 404).setBody (.error "Order not found" none),
          sys := s, thrown := none }
      | some order =>
        { ctx := ctx.setBody (.order { order := order, items := orderItemViews db order.id }),
          sys := s, thrown := none }

/-- The orders of an `{ orders }` body. -/
def Body.orders? : Body → Option (List OrderView)
  | .orders os => some os
  | _ => none

/-! ## `routes/kiosks.js` -/

/-- The first row of `ORDER BY o.created_at ASC LIMIT 1`. -/
def minByCreatedAt : List Order → Option Order
  | [] => none
  | o :: rest =>
    match minByCreatedAt rest with
    | none => some o
    | some best => if o.created_at ≤ best.created_at then some o else some best

/-- The parameter `kiosk.role === 'fulfill' ? kiosk.client_kiosk_id : kiosk.id`. -/
def scopeKioskId (kiosk : Kiosk) : Option Int :=
  if kiosk.role = .fulfill then kiosk.client_kiosk_id else some kiosk.id

/-- The join of an order with `order_items` and `items` has a row whose item is of
kiosk type `ty`. -/
def hasItemOfType (db : Db) (ty : KioskType) (o : Order) : Bool :=
  db.order_items.any fun oi =>
    oi.order_id == o.id && db.items.any fun i => i.id == oi.item_id && i.kiosk_type == ty

/-- The common table expression `matching_orders`: the distinct orders that are pending,
have an item of the kiosk's type and belong to the scoped kiosk. -/
def matchingOrders (db : Db) (kiosk : Kiosk) : List Order :=
  db.orders.filter fun o =>
    o.status == .pending && hasItemOfType db kiosk.type o &&
      decide (some o.kiosk_id = scopeKioskId kiosk)

/-- The query for `currentOrder`. -/
def currentOrderOf (db : Db) (kiosk : Kiosk) : Option Order :=
  minByCreatedAt (matchingOrders db kiosk)

/-- The query for `currentOrder.items`: the line items of the order joined with their
item, restricted to items of kiosk type `ty`. -/
def typedItemViews (db : Db) (orderId : Int) (ty : KioskType) : List OrderItemView :=
  (db.order_items.filter (fun oi => oi.order_id == orderId)).flatMap fun oi =>
    (db.items.filter (fun i => i.id == oi.item_id && i.kiosk_type == ty)).map fun i =>
      { order_id := oi.order_id, item_id := oi.item_id, customizations := oi.customizations,
        name := i.name, description := i.description }

/-- The handler of `GET /kiosks/:id`. -/
def getKiosk (idParam : String) : Handler := fun ctx s =>
  match parseInt10 idParam with
  | none =>
    { ctx := (ctx.setStatus 400).setBody (.error "Invalid kiosk ID" none), sys := s, thrown := none }
  | some id =>
    match query s with
    | .error e => { ctx := ctx, sys := s, thrown := some e }
    | .ok db =>
      match findKiosk db id with
      | none =>
        { ctx := (ctx.setStatus 404).setBody (.error "Kiosk not found" none),
          sys := s, thrown := none }
      | some kiosk =>
        let currentOrder := (currentOrderOf db kiosk).map fun o =>
          ({ order := o, items := typedItemViews db o.id kiosk.type } : OrderView)
        { ctx := ctx.setBody (.kiosk kiosk currentOrder), sys := s, thrown := none }

/-- The handler of `GET /kiosks`. -/
def listKiosks : Handler := fun ctx s =>
  match query s with
  | .error e => { ctx := ctx, sys := s, thrown := some e }
  | .ok db =>
    { ctx := ctx.setBody
        (.kiosks (db.kiosks.insertionSort (fun a b => b.created_at ≤ a.created_at))),
      sys := s, thrown := none }

/-- The destructured body of `POST /kiosks` and of `PATCH /kiosks/:id`. -/
structure KioskBody where
  type : JsVal
  role : JsVal
  enabled : JsVal
  nickname : JsVal
  app_version : JsVal
  app_platform : JsVal
  client_kiosk_id : JsVal

/-- The cast of a bound value to `kiosk_type`. -/
def KioskType.ofJsVal? : JsVal → Option KioskType
  | some (.str t) => KioskType.ofString? t
  | _ => none

/-- The cast of a bound value to `kiosk_role`. -/
def KioskRole.ofJsVal? : JsVal → Option KioskRole
  | some (.str "order") => some .order
  | some (.str "fulfill") => some .fulfill
  | some (.str "customize") => some .customize
  | _ => none

/-- How a bound value is read for a boolean column. -/
def pgBool : JsVal → Except JsError Bool
  | some (.bool b) => .ok b
  | _ => .error { message := "invalid input syntax for type boolean", status := none }

/-- How a bound value is read for a nullable text column. -/
def pgText : JsVal → Except JsError (Option String)
  | some (.str t) => .ok (some t)
  | some (.num n) => .ok (some (toString n))
  | some (.bool b) => .ok (some (toString b))
  | some .null => .ok none
  | _ => .error { message := "invalid input for type text", status := none }

/-- The first row of `SELECT id FROM kiosks WHERE id = ...` for a bound value: `null`
matches no row. -/
def findKioskByParam (db : Db) (v : JsVal) : Except JsError (Option Kiosk) :=
  match v with
  | some .null => .ok none
  | other =>
    match pgInteger other with
    | .error e => .error e
    | .ok n => .ok (findKiosk db n)

/-- Modelled from the spec: the value stored in `client_kiosk_id`, a nullable reference to
another kiosk (the schema file is not part of the sources); a value that names no
kiosk violates the reference. -/
def pgKioskReference (db : Db) (v : JsVal) : Except JsError (Option Int) :=
  match v with
  | none => .ok none
  | some .null => .ok none
  | other =>
    match pgInteger other with
    | .error e => .error e
    | .ok n =>
      match findKiosk db n with
      | none => .error { message := "violates foreign key constraint", status := none }
      | some _ => .ok (some n)

/-- A column that is written only when its value was supplied. -/
def optionalText (v : JsVal) (current : Option String) : Except JsError (Option String) :=
  match v with
  | none => .ok current
  | some j => pgText (some j)

/-- The `INSERT INTO kiosks ... RETURNING *` of `POST /kiosks`; `newId` is the id the
sequence assigns and `now` the creation time. -/
def insertKiosk (newId now : Int) (body : KioskBody) (db : Db) : Except JsError (Db × Kiosk) :=
  match KioskType.ofJsVal? body.type, KioskRole.ofJsVal? body.role with
  | some ty, some role =>
    match pgBool (match body.enabled with
        | none => some (.bool true)
        | some v => some v) with
    | .error e => .error e
    | .ok enabled =>
      match optionalText body.nickname none, optionalText body.app_version none,
          optionalText body.app_platform none, pgKioskReference db body.client_kiosk_id with
      | .ok nickname, .ok appVersion, .ok appPlatform, .ok client =>
        let row : Kiosk :=
          { id := newId, type := ty, role := role, enabled := enabled, nickname := nickname,
            app_version := appVersion, app_platform := appPlatform, client_kiosk_id := client,
            created_at := now }
        .ok ({ db with kiosks := db.kiosks ++ [row] }, row)
      | .error e, _, _, _ => .error e
      | _, .error e, _, _ => .error e
      | _, _, .error e, _ => .error e
      | _, _, _, .error e => .error e
  | _, _ => .error invalidEnumError

/-- The test `["sweet", "juice"].includes(v)`. -/
def kioskTypeIncludes (v : JsVal) : Bool :=
  (KioskType.ofJsVal? v).isSome

/-- The test `["order", "fulfill", "customize"].includes(v)`. -/
def kioskRoleIncludes (v : JsVal) : Bool :=
  (KioskRole.ofJsVal? v).isSome

/-- The block `if (client_kiosk_id) ...` of `POST /kiosks`: `true` when the lookup of
the referenced kiosk returns no row. -/
def createReferenceMissing (db : Db) (v : JsVal) : Except JsError Bool :=
  if truthy v then
    match findKioskByParam db v with
    | .error e => .error e
    | .ok none => .ok true
    | .ok (some _) => .ok false
  else .ok false

/-- The handler of `POST /kiosks`. -/
def createKiosk (newId now : Int) (body : KioskBody) : Handler := fun ctx s =>
  if !truthy body.type || !truthy body.role then
    { ctx := (ctx.setStatus 400).setBody (.error "type and role are required" none),
      sys := s, thrown := none }
  else if !kioskTypeIncludes body.type then
    { ctx := (ctx.setStatus 400).setBody (.error "Invalid kiosk type" none),
      sys := s, thrown := none }
  else if !kioskRoleIncludes body.role then
    { ctx := (ctx.setStatus 400).setBody (.error "Invalid kiosk role" none),
      sys := s, thrown := none }
  else if strictEq body.role (some (.str "fulfill")) && !truthy body.client_kiosk_id then
    { ctx := (ctx.setStatus 400).setBody
        (.error "client_kiosk_id is required when role is 'fulfill'" none),
      sys := s, thrown := none }
  else if !strictEq body.role (some (.str "fulfill")) && truthy body.client_kiosk_id then
    { ctx := (ctx.setStatus 400).setBody
        (.error "client_kiosk_id is not allowed when role is not 'fulfill'" none),
      sys := s, thrown := none }
  else
    match query s with
    | .error e => { ctx := ctx, sys := s, thrown := some e }
    | .ok db =>
      match createReferenceMissing db body.client_kiosk_id with
      | .error e => { ctx := ctx, sys := s, thrown := some e }
      | .ok true =>
        { ctx := (ctx.setStatus 400).setBody (.error "Referenced kiosk not found" none),
          sys := s, thrown := none }
      | .ok false =>
        match insertKiosk newId now body db with
        | .error e => { ctx := ctx, sys := s, thrown := some e }
        | .ok (db1, kiosk) =>
          { ctx := (ctx.setStatus 201).setBody (.kioskOnly kiosk), sys := { s with db := db1 },
            thrown := none }

/-- The test that every field of the body of `PATCH /kiosks/:id` is `undefined`. -/
def kioskBodyEmpty (body : KioskBody) : Bool :=
  body.enabled.isNone && body.nickname.isNone && body.type.isNone && body.role.isNone &&
    body.app_version.isNone && body.app_platform.isNone && body.client_kiosk_id.isNone

/-- Truthiness of the stored `client_kiosk_id` of a row (`null` and `0` are falsy). -/
def storedClientTruthy (k : Kiosk) : Bool :=
  match k.client_kiosk_id with
  | none => false
  | some n => n != 0

/-- The block "If role is being updated, validate client_kiosk_id" of
`PATCH /kiosks/:id`: the message of the 400 it answers, if any. -/
def patchRoleRule (body : KioskBody) (existing : Kiosk) : Option String :=
  match body.role with
  | none => none
  | some _ =>
    if strictEq body.role (some (.str "fulfill")) && body.client_kiosk_id.isNone
        && !storedClientTruthy existing then
      some "client_kiosk_id is required when role is 'fulfill'"
    else if !strictEq body.role (some (.str "fulfill"))
        && (body.client_kiosk_id.isSome || storedClientTruthy existing) then
      some "client_kiosk_id is not allowed when role is not 'fulfill'"
    else none

/-- The block "If client_kiosk_id is being updated, validate it references a valid
kiosk" of `PATCH /kiosks/:id`: `true` when the lookup returns no row. -/
def patchReferenceMissing (db : Db) (v : JsVal) : Except JsError Bool :=
  match v with
  | none => .ok false
  | some j =>
    match findKioskByParam db (some j) with
    | .error e => .error e
    | .ok none => .ok true
    | .ok (some _) => .ok false

/-- The effect of the built `UPDATE kiosks SET ...` on one row: every supplied field,
and no other, is written. -/
def patchedKiosk (db : Db) (body : KioskBody) (row : Kiosk) : Except JsError Kiosk :=
  match (match body.enabled with
          | none => Except.ok row.enabled
          | some v => pgBool (some v)),
        optionalText body.nickname row.nickname,
        (match body.type with
          | none => Except.ok row.type
          | some v =>
            match KioskType.ofJsVal? (some v) with
            | some ty => .ok ty
            | none => .error invalidEnumError),
        (match body.role with
          | none => Except.ok row.role
          | some v =>
            match KioskRole.ofJsVal? (some v) with
            | some r => .ok r
            | none => .error invalidEnumError),
        optionalText body.app_version row.app_version,
        optionalText body.app_platform row.app_platform,
        (match body.client_kiosk_id with
          | none => Except.ok row.client_kiosk_id
          | some v => pgKioskReference db (some v)) with
  | .ok enabled, .ok nickname, .ok ty, .ok role, .ok appVersion, .ok appPlatform, .ok client =>
    .ok { row with enabled := enabled, nickname := nickname, type := ty, role := role,
                   app_version := appVersion, app_platform := appPlatform,
                   client_kiosk_id := client }
  | .error e, _, _, _, _, _, _ => .error e
  | _, .error e, _, _, _, _, _ => .error e
  | _, _, .error e, _, _, _, _ => .error e
  | _, _, _, .error e, _, _, _ => .error e
  | _, _, _, _, .error e, _, _ => .error e
  | _, _, _, _, _, .error e, _ => .error e
  | _, _, _, _, _, _, .error e => .error e

/-- The rows of `kiosks` after the update of the rows with the given id. -/
def patchRows (db : Db) (body : KioskBody) (id : Int) : List Kiosk → Except JsError (List Kiosk)
  | [] => .ok []
  | row :: rest =>
    match patchRows db body id rest with
    | .error e => .error e
    | .ok rows =>
      if row.id == id then
        match patchedKiosk db body row with
        | .error e => .error e
        | .ok row1 => .ok (row1 :: rows)
      else .ok (row :: rows)

/-- The handler of `PATCH /kiosks/:id`. The returned row is the first updated one; with
no updated row the body is `{ kiosk: undefined }`, an empty object. -/
def patchKiosk (idParam : String) (body : KioskBody) : Handler := fun ctx s =>
  match parseInt10 idParam with
  | none =>
    { ctx := (ctx.setStatus 400).setBody (.error "Invalid kiosk ID" none), sys := s, thrown := none }
  | some id =>
    if kioskBodyEmpty body then
      { ctx := (ctx.setStatus 400).setBody (.error "No fields to update" none),
        sys := s, thrown := none }
    else
      match query s with
      | .error e => { ctx := ctx, sys := s, thrown := some e }
      | .ok db =>
        match findKiosk db id with
        | none =>
          { ctx := (ctx.setStatus 404).setBody (.error "Kiosk not found" none),
            sys := s, thrown := none }
        | some existing =>
          if body.type.isSome && !kioskTypeIncludes body.type then
            { ctx := (ctx.setStatus 400).setBody (.error "Invalid kiosk type" none),
              sys := s, thrown := none }
          else if body.role.isSome && !kioskRoleIncludes body.role then
            { ctx := (ctx.setStatus 400).setBody (.error "Invalid kiosk role" none),
              sys := s, thrown := none }
          else
            match patchRoleRule body existing with
            | some m =>
              { ctx := (ctx.setStatus 400).setBody (.error m none), sys := s, thrown := none }
            | none =>
              match patchReferenceMissing db body.client_kiosk_id with
              | .error e => { ctx := ctx, sys := s, thrown := some e }
              | .ok true =>
                { ctx := (ctx.setStatus 400).setBody (.error "Referenced kiosk not found" none),
                  sys := s, thrown := none }
              | .ok false =>
                match patchRows db body id db.kiosks with
                | .error e => { ctx := ctx, sys := s, thrown := some e }
                | .ok rows =>
                  match rows.find? (fun k => k.id == id) with
                  | none =>
                    { ctx := ctx.setBody .emptyObject,
                      sys := { s with db := { db with kiosks := rows } }, thrown := none }
                  | some kiosk =>
                    { ctx := ctx.setBody (.kioskOnly kiosk),
                      sys := { s with db := { db with kiosks := rows } }, thrown := none }

/-- The handler of `DELETE /kiosks/:id` (what the absent schema does to rows that
refer to the deleted kiosk is not modelled). -/
def deleteKiosk (idParam : String) : Handler := fun ctx s =>
  match parseInt10 idParam with
  | none =>
    { ctx := (ctx.setStatus 400).setBody (.error "Invalid kiosk ID" none), sys := s, thrown := none }
  | some id =>
    match query s with
    | .error e => { ctx := ctx, sys := s, thrown := some e }
    | .ok db =>
      match db.kiosks.find? (fun k => k.id == id) with
      | none =>
        { ctx := (ctx.setStatus 404).setBody (.error "Kiosk not found" none),
          sys := s, thrown := none }
      | some _ =>
        { ctx := (ctx.setStatus 200).setBody (.message "Kiosk deleted successfully"),
          sys := { s with db := { db with kiosks := db.kiosks.filter (fun k => k.id != id) } },
          thrown := none }

/-- The kiosk of a `{ kiosk }` body. -/
def Body.kioskOnly? : Body → Option Kiosk
  | .kioskOnly k => some k
  | _ => none

/-! ## Sequences of mode changes -/

/-- A sequence of `await setMaintenanceMode(b)` calls, each run to completion before
the next starts; every call comes with the way its `sql.end(...)` settles. -/
def runSetModes (calls : List (Bool × Option JsError)) (s : Sys) : Sys :=
  calls.foldl (fun st c => (setMaintenanceModeAwaited c.2 c.1 st).2) s

/-! ## The operations behind the router -/

/-- The order, kiosk and maintenance operations with the inputs the router and the
body parser hand to them. -/
inductive Operation where
  | listOrders (userMatches : String → Order → Bool) (latest userId kioskType : Option String)
  | listOrdersByStatus (status : String) (latest : Option String)
  | getOrder (idParam : String)
  | createOrder (now : Int) (body : CreateOrderBody)
  | updateOrder (idParam : String) (body : UpdateOrderBody)
  | deleteOrder (idParam : String)
  | listKiosks
  | getKiosk (idParam : String)
  | createKiosk (newId now : Int) (body : KioskBody)
  | patchKiosk (idParam : String) (body : KioskBody)
  | deleteKiosk (idParam : String)
  | getMaintenance
  | postMaintenance (enabled : JsVal)

/-- The route handler of an operation. -/
def Operation.handler : Operation → Handler
  | .listOrders userMatches latest userId kioskType =>
    Jpmp.listOrders userMatches latest userId kioskType
  | .listOrdersByStatus status latest => Jpmp.listOrdersByStatus status latest
  | .getOrder idParam => Jpmp.getOrder idParam
  | .createOrder now body => Jpmp.createOrder now body
  | .updateOrder idParam body => Jpmp.updateOrder idParam body
  | .deleteOrder idParam => Jpmp.deleteOrder idParam
  | .listKiosks => Jpmp.listKiosks
  | .getKiosk idParam => Jpmp.getKiosk idParam
  | .createKiosk newId now body => Jpmp.createKiosk newId now body
  | .patchKiosk idParam body => Jpmp.patchKiosk idParam body
  | .deleteKiosk idParam => Jpmp.deleteKiosk idParam
  | .getMaintenance => Jpmp.getMaintenance
  | .postMaintenance enabled => Jpmp.postMaintenance enabled

/-- The operation belongs to `routes/orders.js` or `routes/kiosks.js`. -/
def Operation.isOrderOrKiosk : Operation → Bool
  | .getMaintenance => false
  | .postMaintenance _ => false
  | _ => true

/-! ## Specification-side notions for order creation -/

/-- The request passed the field validations of `POST /orders` on a connected database
and its `kiosk_id` denotes the stored kiosk `kiosk`; `xs` are the submitted items. -/
structure PassesValidation (body : CreateOrderBody) (s : Sys) (xs : List Json) (kid : Int)
    (kiosk : Kiosk) : Prop where
  kiosk_given : truthy body.kiosk_id = true
  items_given : body.items = some (.arr xs)
  items_nonempty : xs ≠ []
  status_allowed : body.status = none ∨ body.status = some (.str "completed")
  items_have_id : itemsMissingId xs = .ok false
  connected : query s = .ok s.db
  kiosk_key : pgInteger body.kiosk_id = .ok kid
  kiosk_found : findKiosk s.db kid = some kiosk

/-- The order `R` is the stored order of highest id among those of kiosk `kid`. -/
def IsNewestOrderOf (db : Db) (kid : Int) (R : Order) : Prop :=
  R ∈ db.orders ∧ R.kiosk_id = kid ∧ ∀ o ∈ db.orders, o.kiosk_id = kid → o.id ≤ R.id

/-- Values compared by value: `undefined`, `null`, booleans, numbers and strings. -/
def isPrimitive : JsVal → Bool
  | none => true
  | some .null => true
  | some (.bool _) => true
  | some (.num _) => true
  | some (.str _) => true
  | some (.arr _) => false
  | some (.obj _) => false

/-- The order row a successful `POST /orders` is expected to insert. -/
def expectedOrderRow (now : Int) (body : CreateOrderBody) (kid : Int) (kiosk : Kiosk)
    (db : Db) : Order :=
  { id := db.nextOrderId, kiosk_id := kid, kiosk_type := kiosk.type,
    status := (match body.status with
      | none => OrderStatus.pending
      | some _ => OrderStatus.completed),
    user_profile := (match body.user_profile with
      | none => Json.null
      | some doc => doc),
    survey_response := .null, created_at := now }

/-- The submitted element `x` resolves to the catalog item `it`. -/
def Resolves (db : Db) (x : Json) (it : Item) : Prop :=
  ∃ idv shown, x.prop "id" = .ok idv ∧ lookupItem db idv = .ok (shown, some it)

/-- The text `t` is the decimal notation of a positive integer: digits only, at least
one, the first not `0`. -/
def isPositiveDecimal (t : String) : Bool :=
  match t.toList with
  | [] => false
  | c :: rest => c.isDigit && c != '0' && rest.all Char.isDigit

/-- The order `o` is in the queue of kiosk `K`: it is stored and pending, it belongs to
the kiosk `K` serves (its `client_kiosk_id` when its role is `fulfill`, itself
otherwise), and it has a line item whose item is of the type of `K`. -/
def InQueue (db : Db) (K : Kiosk) (o : Order) : Prop :=
  o ∈ db.orders ∧ o.status = .pending ∧
  some o.kiosk_id = (if K.role = .fulfill then K.client_kiosk_id else some K.id) ∧
  ∃ oi ∈ db.order_items, ∃ i ∈ db.items,
    oi.order_id = o.id ∧ i.id = oi.item_id ∧ i.kiosk_type = K.type

/-! ## Sample data -/

/-- A database without rows. -/
def Db.empty : Db :=
  { items := [], kiosks := [], orders := [], order_items := [], nextOrderId := 1 }

/-- The state in the middle of `setMaintenanceMode(true)`: `sql.end` has resolved and
`disconnectDatabase` has cleared `isConnected`, the flag is not yet assigned. -/
def midSwitchState : Sys :=
  ((setMaintenanceMode true (Sys.init Db.empty)).1.resume none
    (setMaintenanceMode true (Sys.init Db.empty)).2).2

/-- A route handler that answers 200 with a fixed text. -/
def okHandler : Handler := fun ctx s =>
  { ctx := (ctx.setStatus 200).setBody (.message "ok"), sys := s, thrown := none }

/-- An available catalog item. -/
def donutItem : Item :=
  { id := 1, slug := "donut", kiosk_type := .sweet, item_type := .sweet, name := "Donut",
    description := "glazed", available := true, created_at := 0 }

/-- A catalog item that is out of stock. -/
def orangeItem : Item :=
  { id := 2, slug := "orange", kiosk_type := .juice, item_type := .juice, name := "Orange",
    description := "fresh", available := false, created_at := 0 }

/-- The sample catalog. -/
def sampleItems : List Item :=
  [donutItem, orangeItem]

/-- An ordering kiosk with id 1. -/
def sampleKiosk : Kiosk :=
  { id := 1, type := .sweet, role := .order, enabled := true, nickname := none,
    app_version := none, app_platform := none, client_kiosk_id := none, created_at := 0 }

/-- A stored order of kiosk 1, created at time 1000, whose profile has the string id
`u1`. -/
def storedOrder : Order :=
  { id := 1, kiosk_id := 1, kiosk_type := .sweet, status := .pending,
    user_profile := .obj [("id", .str "u1")], survey_response := .null, created_at := 1000 }

/-- A database with the sample catalog, the sample kiosk and `storedOrder`. -/
def sampleDb : Db :=
  { items := sampleItems, kiosks := [sampleKiosk], orders := [storedOrder],
    order_items := [{ order_id := 1, item_id := 1, customizations := .null }],
    nextOrderId := 2 }

/-- A stored order of kiosk 1 whose profile has an object as `id`. -/
def objectIdOrder : Order :=
  { storedOrder with user_profile := .obj [("id", .obj [("a", .num 1)])] }

/-- The sample database with `objectIdOrder` as its only order. -/
def objectIdDb : Db :=
  { sampleDb with orders := [objectIdOrder] }

/-- A request of kiosk 1 for one donut by the user with the object id. -/
def objectIdBody : CreateOrderBody :=
  { kiosk_id := some (.num 1), items := some (.arr [.obj [("id", .num 1)]]),
    user_profile := some (.obj [("id", .obj [("a", .num 1)])]), status := none }

/-- A request of kiosk 1 for one donut by user `u1`. -/
def retryBody : CreateOrderBody :=
  { kiosk_id := some (.num 1), items := some (.arr [.obj [("id", .num 1)]]),
    user_profile := some (.obj [("id", .str "u1")]), status := none }

/-- A request whose only item has no `id` and whose status is `pending`. -/
def badStatusBody : CreateOrderBody :=
  { kiosk_id := some (.num 1), items := some (.arr [.obj []]),
    user_profile := none, status := some (.str "pending") }

/-- A request whose first item is out of stock and whose second item does not exist. -/
def mixedFailureBody : CreateOrderBody :=
  { kiosk_id := some (.num 1),
    items := some (.arr [.obj [("id", .num 2)], .obj [("id", .str "ghost")]]),
    user_profile := none, status := none }

/-- A request whose first item is fine and whose second item is out of stock. -/
def lateFailureBody : CreateOrderBody :=
  { kiosk_id := some (.num 1),
    items := some (.arr [.obj [("id", .str "donut")], .obj [("id", .num 2)]]),
    user_profile := none, status := none }

/-- A request for a donut by id, with customizations, and a donut by slug. -/
def twoDonutsBody : CreateOrderBody :=
  { kiosk_id := some (.num 1),
    items := some (.arr [.obj [("id", .num 1), ("customizations", .obj [("icing", .str "pink")])],
                         .obj [("id", .str "donut")]]),
    user_profile := none, status := some (.str "completed") }

/-- A second ordering kiosk, with id 2. -/
def secondKiosk : Kiosk :=
  { sampleKiosk with id := 2 }

/-- The sample database with the two ordering kiosks. -/
def twoKioskDb : Db :=
  { sampleDb with kiosks := [sampleKiosk, secondKiosk] }

/-- A body of `PATCH /kiosks/:id` that supplies only `client_kiosk_id: 2`. -/
def clientOnlyBody : KioskBody :=
  { type := none, role := none, enabled := none, nickname := none, app_version := none,
    app_platform := none, client_kiosk_id := some (.num 2) }

/-- The kiosk invariant as a test: `client_kiosk_id` is set exactly when the role is
`fulfill`. -/
def kioskInvariant (db : Db) : Bool :=
  db.kiosks.all fun k => decide (k.client_kiosk_id.isSome = true ↔ k.role = .fulfill)

/-- Three pending orders of kiosk 1, created at times 100, 200 and 300, each with one
donut. -/
def fifoDb : Db :=
  { items := sampleItems, kiosks := [sampleKiosk],
    orders :=
      [{ storedOrder with id := 2, created_at := 200 },
       { storedOrder with id := 1, created_at := 100 },
       { storedOrder with id := 3, created_at := 300 }],
    order_items :=
      [{ order_id := 1, item_id := 1, customizations := .null },
       { order_id := 2, item_id := 1, customizations := .null },
       { order_id := 3, item_id := 1, customizations := .null },
       { order_id := 1, item_id := 2, customizations := .null }],
    nextOrderId := 4 }

/-- A body of `POST /orders` without any field. -/
def emptyOrderBody : CreateOrderBody :=
  { kiosk_id := none, items := none, user_profile := none, status := none }

/-- A body of `PATCH /orders/:id` that completes the order. -/
def completeBody : UpdateOrderBody :=
  { status := some (.str "completed"), survey_response := none }

/-- A body of `PATCH /orders/:id` with both fields. -/
def fullUpdateBody : UpdateOrderBody :=
  { status := some (.str "canceled"), survey_response := some (.obj [("stars", .num 5)]) }

/-- A body of `PATCH /orders/:id` without any field. -/
def emptyUpdateBody : UpdateOrderBody :=
  { status := none, survey_response := none }

/-- The `currentOrder` of a `{ kiosk, currentOrder }` body. -/
def Body.currentOrder? : Body → Option OrderView
  | .kiosk _ cur => cur
  | _ => none

/-! ## Theorems -/

/-! ### Auxiliary facts -/

theorem deleteOrder_absent (idParam : String) (id : Int) (ctx : Ctx) (s : Sys)
    (hid : parseInt10 idParam = some id) (hq : query s = .ok s.db)
    (habs : ∀ o ∈ s.db.orders, o.id ≠ id) :
    (deleteOrder idParam ctx s).ctx.status = 200 ∧
    (deleteOrder idParam ctx s).ctx.body = some (.message "Order deleted successfully") ∧
    (deleteOrder idParam ctx s).sys.db.orders = s.db.orders := by
  have hkeep : s.db.orders.filter (fun o => o.id != id) = s.db.orders := by
    rw [List.filter_eq_self]
    intro o ho
    simpa using habs o ho
  simp [deleteOrder, hid, hq, hkeep, Ctx.setStatus, Ctx.setBody]

theorem app_answers_500_on_disconnect_error (route : Handler) (ctx : Ctx) (s : Sys)
    (hflag : s.maintenanceMode = false) (hpath : isMaintenanceEndpoint ctx.path = false)
    (hthrow : (route ctx s).thrown = some dbDisconnectedError) :
    (app route ctx s).ctx.status = 500 ∧
    (app route ctx s).ctx.body =
      some (.error "Database is disconnected for maintenance" (some 500)) ∧
    (app route ctx s).thrown = none := by
  simp [app, maintenanceMiddleware, errorMiddleware, hflag, hpath, hthrow, dbDisconnectedError,
    Ctx.setStatus, Ctx.setBody]

theorem postMaintenance_body_is_old_flag (b : Bool) (ctx : Ctx) (s : Sys)
    (h : b ≠ s.maintenanceMode) :
    (postMaintenance (some (.bool b)) ctx s).ctx.body = some (.enabled s.maintenanceMode) ∧
    (postMaintenance (some (.bool b)) ctx s).sys.maintenanceMode = s.maintenanceMode := by
  obtain ⟨mode, pool, conn, db⟩ := s
  cases b <;> cases mode <;> cases conn <;> simp at h <;>
    simp [postMaintenance, setMaintenanceMode, getMaintenanceMode, reconnectDatabase,
      disconnectDatabaseBegin, Ctx.setBody]


theorem strictEq_eq_true_iff (a b : JsVal) :
    strictEq a b = true ↔ a = b ∧ isPrimitive a = true := by
  rcases a with _ | a <;> rcases b with _ | b
  · simp [strictEq, isPrimitive]
  · simp [strictEq]
  · cases a <;> simp [strictEq]
  · cases a <;> cases b <;> simp [strictEq, isPrimitive]

theorem strictEq_none_left (a : JsVal) : strictEq a none = true ↔ a = none := by
  rw [strictEq_eq_true_iff]
  constructor
  · exact fun h => h.1
  · rintro rfl
    exact ⟨rfl, rfl⟩

theorem strictEq_str_right (a : JsVal) (t : String) :
    strictEq a (some (.str t)) = true ↔ a = some (.str t) := by
  rw [strictEq_eq_true_iff]
  constructor
  · exact fun h => h.1
  · rintro rfl
    exact ⟨rfl, rfl⟩

theorem maxById_eq_none (l : List Order) : maxById l = none ↔ l = [] := by
  cases l with
  | nil => simp [maxById]
  | cons o rest =>
    simp only [maxById]
    cases maxById rest with
    | none => simp
    | some best => by_cases h : best.id < o.id <;> simp [h]

theorem maxById_spec (l : List Order) (r : Order) (h : maxById l = some r) :
    r ∈ l ∧ ∀ o ∈ l, o.id ≤ r.id := by
  induction l generalizing r with
  | nil => simp [maxById] at h
  | cons o rest ih =>
    simp only [maxById] at h
    cases hm : maxById rest with
    | none =>
      rw [hm] at h
      have hr : rest = [] := (maxById_eq_none rest).1 hm
      simp only [Option.some.injEq] at h
      subst h
      subst hr
      simp
    | some best =>
      rw [hm] at h
      obtain ⟨hmem, hmax⟩ := ih best hm
      by_cases hlt : best.id < o.id
      · simp only [hlt, if_true, Option.some.injEq] at h
        subst h
        refine ⟨List.mem_cons_self _ _, ?_⟩
        intro o2 ho2
        rcases List.mem_cons.1 ho2 with rfl | ho2
        · exact le_refl _
        · exact le_trans (hmax o2 ho2) (le_of_lt hlt)
      · simp only [hlt, if_false, Option.some.injEq] at h
        subst h
        refine ⟨List.mem_cons_of_mem _ hmem, ?_⟩
        intro o2 ho2
        rcases List.mem_cons.1 ho2 with rfl | ho2
        · exact not_lt.1 hlt
        · exact hmax o2 ho2

theorem order_eq_of_id_eq (l : List Order) (hkey : l.Pairwise (fun a b => a.id ≠ b.id))
    (a b : Order) (ha : a ∈ l) (hb : b ∈ l) (hid : a.id = b.id) : a = b := by
  induction l with
  | nil => simp at ha
  | cons o rest ih =>
    rw [List.pairwise_cons] at hkey
    rcases List.mem_cons.1 ha with ha1 | ha1 <;> rcases List.mem_cons.1 hb with hb1 | hb1
    · rw [ha1, hb1]
    · exact absurd (ha1 ▸ hid) (hkey.1 b hb1)
    · exact absurd (hb1 ▸ hid.symm) (hkey.1 a ha1)
    · exact ih hkey.2 ha1 hb1

theorem recentOrder_isNewest (db : Db) (kid : Int) (r : Order)
    (h : recentOrder db kid = some r) : IsNewestOrderOf db kid r := by
  obtain ⟨hmem, hmax⟩ := maxById_spec _ r h
  rw [List.mem_filter] at hmem
  refine ⟨hmem.1, by simpa using hmem.2, ?_⟩
  intro o ho hk
  exact hmax o (List.mem_filter.2 ⟨ho, by simpa using hk⟩)

theorem recentOrder_of_isNewest (db : Db) (kid : Int) (R : Order)
    (hkey : db.orders.Pairwise (fun a b => a.id ≠ b.id)) (hR : IsNewestOrderOf db kid R) :
    recentOrder db kid = some R := by
  obtain ⟨hmem, hk, hmax⟩ := hR
  have hin : R ∈ db.orders.filter (fun o => o.kiosk_id == kid) :=
    List.mem_filter.2 ⟨hmem, by simpa using hk⟩
  cases hm : recentOrder db kid with
  | none =>
    have hnil := (maxById_eq_none _).1 hm
    rw [hnil] at hin
    simp at hin
  | some r =>
    obtain ⟨hr, hrk, hrmax⟩ := recentOrder_isNewest db kid r hm
    have h1 : R.id ≤ r.id := (maxById_spec _ r hm).2 R hin
    have h2 : r.id ≤ R.id := hmax r hr hrk
    rw [order_eq_of_id_eq db.orders hkey r R hr hmem (le_antisymm h2 h1)]

theorem insertOrderTx_spec (now : Int) (body : CreateOrderBody) (kid : Int) (kiosk : Kiosk)
    (pairs : List (Json × Int)) (db : Db)
    (hst : body.status = none ∨ body.status = some (.str "completed")) :
    ∃ co, (db.orders ++ [expectedOrderRow now body kid kiosk db]).find?
          (fun o => o.id == db.nextOrderId) = some co ∧
      insertOrderTx now body kid kiosk pairs db =
        .ok ({ items := db.items, kiosks := db.kiosks,
               orders := db.orders ++ [expectedOrderRow now body kid kiosk db],
               order_items := db.order_items ++ pairs.map (orderItemRow db.nextOrderId),
               nextOrderId := db.nextOrderId + 1 },
             { order := co,
               items := orderItemViews
                 { items := db.items, kiosks := db.kiosks,
                   orders := db.orders ++ [expectedOrderRow now body kid kiosk db],
                   order_items := db.order_items ++ pairs.map (orderItemRow db.nextOrderId),
                   nextOrderId := db.nextOrderId + 1 } db.nextOrderId }) := by
  have hfind : ∃ co, (db.orders ++ [expectedOrderRow now body kid kiosk db]).find?
      (fun o => o.id == db.nextOrderId) = some co := by
    cases hf : (db.orders ++ [expectedOrderRow now body kid kiosk db]).find?
        (fun o => o.id == db.nextOrderId) with
    | some co => exact ⟨co, rfl⟩
    | none =>
      rw [List.find?_eq_none] at hf
      have := hf (expectedOrderRow now body kid kiosk db) (by simp)
      simp [expectedOrderRow] at this
  obtain ⟨co, hco⟩ := hfind
  refine ⟨co, hco, ?_⟩
  rcases hst with hst | hst
  · have hco2 := hco
    simp only [expectedOrderRow, hst] at hco2
    simp [insertOrderTx, hst, jsOr, truthy, OrderStatus.ofJsVal?, expectedOrderRow, orNull, hco2]
  · have hco2 := hco
    simp only [expectedOrderRow, hst] at hco2
    simp [insertOrderTx, hst, jsOr, truthy, OrderStatus.ofJsVal?, expectedOrderRow, orNull, hco2]

theorem createOrder_of_valid (now : Int) (body : CreateOrderBody) (ctx : Ctx) (s : Sys)
    (xs : List Json) (kid : Int) (kiosk : Kiosk) (hv : PassesValidation body s xs kid kiosk) :
    createOrder now body ctx s =
      match duplicateOrder now body s.db kid with
      | some recent =>
        { ctx := (ctx.setStatus 201).setBody
            (.order { order := recent, items := orderItemViews s.db recent.id }),
          sys := s, thrown := none }
      | none => placeOrder now body kid kiosk s.db ctx s := by
  obtain ⟨hk, hi, hne, hst, hids, hq, hkid, hfind⟩ := hv
  have hlen : xs.length ≠ 0 := by simpa using hne
  have ht : truthy (some (Json.arr xs)) = true := rfl
  rcases hst with hst | hst <;>
    simp [createOrder, hk, hi, ht, hst, hids, hq, hkid, hfind, isArray, arrayElems,
      strictEq, hlen]


/-- C1 (code defect): `DELETE /orders/5` on a database without order 5 ends with status
200 and the success message, not with 404: the 404 written inside the transaction
callback is overwritten after `begin`. No row is removed. -/
theorem deleteOrder_absent_answers_200 :
    (Sys.init sampleDb).db.orders.filter (fun o => o.id == 5) = [] ∧
    (app (deleteOrder "5") (Ctx.fresh "/orders/5") (Sys.init sampleDb)).ctx.status = 200 ∧
    (app (deleteOrder "5") (Ctx.fresh "/orders/5") (Sys.init sampleDb)).ctx.body.bind
      Body.messageText? = some "Order deleted successfully" ∧
    (app (deleteOrder "5") (Ctx.fresh "/orders/5") (Sys.init sampleDb)).sys.db.orders.length
      = (Sys.init sampleDb).db.orders.length ∧
    (app (deleteOrder "5") (Ctx.fresh "/orders/5") (Sys.init sampleDb)).sys.db.order_items.length
      = (Sys.init sampleDb).db.order_items.length := by
  refine ⟨rfl, ?_, ?_, ?_, ?_⟩ <;> decide

/-- C3 (code defect): `POST /maintenance {enabled: true}` with the flag false answers
200 with `{enabled: false}`, and the flag is still false when the body is produced:
`setMaintenanceMode` is not awaited. -/
theorem postMaintenance_answers_old_flag :
    (Sys.init Db.empty).maintenanceMode = false ∧
    (app (postMaintenance (some (.bool true))) (Ctx.fresh "/maintenance")
      (Sys.init Db.empty)).ctx.status = 200 ∧
    (app (postMaintenance (some (.bool true))) (Ctx.fresh "/maintenance")
      (Sys.init Db.empty)).ctx.body.bind Body.enabledFlag? = some false ∧
    (app (postMaintenance (some (.bool true))) (Ctx.fresh "/maintenance")
      (Sys.init Db.empty)).sys.maintenanceMode = false := by
  refine ⟨?_, ?_, ?_, ?_⟩ <;> decide

/-- C4: the gate answers 503 with the fixed message, whatever the downstream handler
is and without any effect of it, exactly when the flag is true and the path is not
the maintenance endpoint; a request to the maintenance endpoint is handed to the
downstream handler for both values of the flag. -/
theorem maintenanceMiddleware_gate (ctx : Ctx) (s : Sys) :
    ((∀ next : Handler, maintenanceMiddleware next ctx s =
        { ctx := { ctx with status := 503, explicitStatus := true,
                            body := some (.error maintenanceMessage (some 503)) },
          sys := s, thrown := none }) ↔
      (s.maintenanceMode = true ∧ isMaintenanceEndpoint ctx.path = false)) ∧
    (isMaintenanceEndpoint ctx.path = true →
      ∀ next : Handler, maintenanceMiddleware next ctx s = next ctx s) := by
  constructor
  · constructor
    · intro h
      have h1 := congrArg (fun r => r.ctx.status) (h okHandler)
      cases hp : isMaintenanceEndpoint ctx.path
      · cases hm : s.maintenanceMode
        · simp [maintenanceMiddleware, hp, hm, okHandler, Ctx.setStatus, Ctx.setBody] at h1
        · exact ⟨rfl, rfl⟩
      · simp [maintenanceMiddleware, hp, okHandler, Ctx.setStatus, Ctx.setBody] at h1
    · rintro ⟨hm, hp⟩ next
      simp [maintenanceMiddleware, hp, hm, maintenanceResponse, Ctx.setStatus, Ctx.setBody]
  · intro hp next
    simp [maintenanceMiddleware, hp]

/-- C5: `setMaintenanceMode` called with the current value of the flag returns that
value at once and leaves the whole state (flag, `isConnected`, pool) as it was. -/
theorem setMaintenanceMode_same_value (s : Sys) (endResult : Option JsError) :
    setMaintenanceMode s.maintenanceMode s = (.returned s.maintenanceMode, s) ∧
    setMaintenanceModeAwaited endResult s.maintenanceMode s = (.ok s.maintenanceMode, s) := by
  simp [setMaintenanceModeAwaited, setMaintenanceMode, SetModeTask.resume]

/-- C6: for `b` different from the flag, `await setMaintenanceMode(b)` completes when
`sql.end` resolves, and every completed call returns `b`, leaves the flag at `b`
and `isConnected` at `!b`: `getConnection` then throws the maintenance error for
`b = true` and returns the pool for `b = false`. A pool that was connected is ended,
a pool that was disconnected is replaced by a new open one. -/
theorem setMaintenanceMode_changed_value (s : Sys) (b : Bool) (h : b ≠ s.maintenanceMode) :
    (∃ s1, setMaintenanceModeAwaited none b s = (.ok b, s1)) ∧
    ∀ (endResult : Option JsError) (v : Bool) (s1 : Sys),
      setMaintenanceModeAwaited endResult b s = (.ok v, s1) →
        v = b ∧ s1.maintenanceMode = b ∧ getMaintenanceMode s1 = b ∧
        s1.isConnected = !b ∧
        (b = true → getConnection s1 = .error dbDisconnectedError) ∧
        (b = false → getConnection s1 = .ok s1.sql) ∧
        (b = true → s.isConnected = true → s1.sql.ended = true) ∧
        (b = false → s.isConnected = false →
          s1.sql = { serial := s.sql.serial + 1, ended := false }) := by
  obtain ⟨mode, pool, conn, db⟩ := s
  cases b <;> cases mode <;> cases conn <;> simp at h
  all_goals
    refine ⟨⟨_, rfl⟩, ?_⟩
    intro endResult v s1 hrun
    cases endResult <;>
      simp [setMaintenanceModeAwaited, setMaintenanceMode, SetModeTask.resume,
        reconnectDatabase, disconnectDatabaseBegin, disconnectDatabaseFinish] at hrun
    all_goals
      obtain ⟨hv, hs⟩ := hrun
      subst hv
      subst hs
      simp [getConnection, getMaintenanceMode, dbDisconnectedError]

theorem placeOrder_resolved (now : Int) (body : CreateOrderBody) (kid : Int) (kiosk : Kiosk)
    (ctx : Ctx) (s : Sys) (pairs : List (Json × Int))
    (hst : body.status = none ∨ body.status = some (.str "completed"))
    (hres : resolveItems s.db (arrayElems body.items) = .resolved pairs) :
    ∃ co, (s.db.orders ++ [expectedOrderRow now body kid kiosk s.db]).find?
          (fun o => o.id == s.db.nextOrderId) = some co ∧
      placeOrder now body kid kiosk s.db ctx s =
        { ctx := (ctx.setStatus 201).setBody (.order
            { order := co,
              items := orderItemViews
                { items := s.db.items, kiosks := s.db.kiosks,
                  orders := s.db.orders ++ [expectedOrderRow now body kid kiosk s.db],
                  order_items := s.db.order_items ++ pairs.map (orderItemRow s.db.nextOrderId),
                  nextOrderId := s.db.nextOrderId + 1 } s.db.nextOrderId }),
          sys := { s with db :=
            { items := s.db.items, kiosks := s.db.kiosks,
              orders := s.db.orders ++ [expectedOrderRow now body kid kiosk s.db],
              order_items := s.db.order_items ++ pairs.map (orderItemRow s.db.nextOrderId),
              nextOrderId := s.db.nextOrderId + 1 } },
          thrown := none } := by
  obtain ⟨co, hco, htx⟩ := insertOrderTx_spec now body kid kiosk pairs s.db hst
  exact ⟨co, hco, by simp [placeOrder, hres, htx]⟩

theorem placeOrder_ne_duplicate_reply (now : Int) (body : CreateOrderBody) (kid : Int)
    (kiosk : Kiosk) (ctx : Ctx) (s : Sys) (R : Order)
    (hst : body.status = none ∨ body.status = some (.str "completed")) :
    placeOrder now body kid kiosk s.db ctx s ≠
      { ctx := (ctx.setStatus 201).setBody
          (.order { order := R, items := orderItemViews s.db R.id }),
        sys := s, thrown := none } := by
  intro h
  cases hres : resolveItems s.db (arrayElems body.items) with
  | thrown e =>
    have := congrArg Outcome.thrown h
    simp [placeOrder, hres] at this
  | notFound shown =>
    have := congrArg (fun r => r.ctx.status) h
    simp [placeOrder, hres, Ctx.setStatus, Ctx.setBody] at this
  | outOfStock shown =>
    have := congrArg (fun r => r.ctx.status) h
    simp [placeOrder, hres, Ctx.setStatus, Ctx.setBody] at this
  | resolved pairs =>
    obtain ⟨co, -, hplace⟩ := placeOrder_resolved now body kid kiosk ctx s pairs hst hres
    rw [hplace] at h
    have := congrArg (fun r => r.sys.db.orders.length) h
    simp at this

theorem duplicateOrder_eq_some_iff (now : Int) (body : CreateOrderBody) (db : Db) (kid : Int)
    (R : Order) (hkey : db.orders.Pairwise (fun a b => a.id ≠ b.id)) :
    duplicateOrder now body db kid = some R ↔
      IsNewestOrderOf db kid R ∧ now - R.created_at ≤ 30000 ∧
      optChainId body.user_profile = optChainId (some R.user_profile) ∧
      isPrimitive (optChainId body.user_profile) = true := by
  constructor
  · intro h
    unfold duplicateOrder at h
    cases hr : recentOrder db kid with
    | none => simp [hr] at h
    | some recent =>
      simp only [hr, Bool.and_eq_true, decide_eq_true_eq, Option.ite_none_right_eq_some,
        Option.some.injEq] at h
      obtain ⟨⟨hage, hsame⟩, hrec⟩ := h
      subst hrec
      rw [strictEq_eq_true_iff] at hsame
      exact ⟨recentOrder_isNewest db kid recent hr, hage, hsame.1, hsame.2⟩
  · rintro ⟨hnew, hage, hsame, hprim⟩
    have hr := recentOrder_of_isNewest db kid R hkey hnew
    have hs : strictEq (optChainId body.user_profile) (optChainId (some R.user_profile)) = true :=
      (strictEq_eq_true_iff _ _).2 ⟨hsame, hprim⟩
    simp [duplicateOrder, hr, hage, hs]

/-- C7 (amended): for a request that passed validation and whose kiosk resolved, with
`R` the stored order of highest id of that kiosk, the answer is `R` with its items and
an unchanged database exactly when `R` exists, is at most 30000 ms old, and the two
`user_profile.id` values are equal primitives (both absent included; an object or an
array never matches). Otherwise the request goes on to item resolution and, when every
item resolves, appends a new order row. -/
theorem createOrder_duplicate_rule (now : Int) (body : CreateOrderBody) (ctx : Ctx) (s : Sys)
    (xs : List Json) (kid : Int) (kiosk : Kiosk)
    (hv : PassesValidation body s xs kid kiosk)
    (hkey : s.db.orders.Pairwise (fun a b => a.id ≠ b.id)) :
    ((∃ R, IsNewestOrderOf s.db kid R ∧
        createOrder now body ctx s =
          { ctx := (ctx.setStatus 201).setBody
              (.order { order := R, items := orderItemViews s.db R.id }),
            sys := s, thrown := none }) ↔
      (∃ R, IsNewestOrderOf s.db kid R ∧ now - R.created_at ≤ 30000 ∧
        optChainId body.user_profile = optChainId (some R.user_profile) ∧
        isPrimitive (optChainId body.user_profile) = true)) ∧
    ((¬ ∃ R, IsNewestOrderOf s.db kid R ∧ now - R.created_at ≤ 30000 ∧
        optChainId body.user_profile = optChainId (some R.user_profile) ∧
        isPrimitive (optChainId body.user_profile) = true) →
      createOrder now body ctx s = placeOrder now body kid kiosk s.db ctx s ∧
      ∀ pairs, resolveItems s.db xs = .resolved pairs →
        (createOrder now body ctx s).sys.db.orders =
          s.db.orders ++ [expectedOrderRow now body kid kiosk s.db]) := by
  have hcreate := createOrder_of_valid now body ctx s xs kid kiosk hv
  have hxs : arrayElems body.items = xs := by rw [hv.items_given]; rfl
  constructor
  · constructor
    · rintro ⟨R, hnew, hout⟩
      cases hd : duplicateOrder now body s.db kid with
      | none =>
        rw [hcreate, hd] at hout
        exact absurd hout (placeOrder_ne_duplicate_reply now body kid kiosk ctx s R
          hv.status_allowed)
      | some recent =>
        exact ⟨recent, (duplicateOrder_eq_some_iff now body s.db kid recent hkey).1 hd⟩
    · rintro ⟨R, hR⟩
      have hd := (duplicateOrder_eq_some_iff now body s.db kid R hkey).2 hR
      exact ⟨R, hR.1, by rw [hcreate, hd]⟩
  · intro hno
    have hd : duplicateOrder now body s.db kid = none := by
      cases hd : duplicateOrder now body s.db kid with
      | none => rfl
      | some recent =>
        exact absurd ⟨recent, (duplicateOrder_eq_some_iff now body s.db kid recent hkey).1 hd⟩ hno
    have hplace : createOrder now body ctx s = placeOrder now body kid kiosk s.db ctx s := by
      rw [hcreate, hd]
    refine ⟨hplace, ?_⟩
    intro pairs hres
    rw [← hxs] at hres
    obtain ⟨co, -, hp⟩ := placeOrder_resolved now body kid kiosk ctx s pairs
      hv.status_allowed hres
    rw [hplace, hp]

theorem prop_ok_of_ne_null (x : Json) (key : String) (hx : x ≠ Json.null) :
    ∃ v, x.prop key = .ok v := by
  cases x <;> simp [Json.prop] at hx ⊢

theorem itemsMissingId_of_falsy (xs : List Json) (hnn : ∀ x ∈ xs, x ≠ Json.null)
    (hex : ∃ x ∈ xs, ∃ v, x.prop "id" = .ok v ∧ truthy v = false) :
    itemsMissingId xs = .ok true := by
  induction xs with
  | nil => simp at hex
  | cons y rest ih =>
    obtain ⟨w, hw⟩ := prop_ok_of_ne_null y "id" (hnn y (List.mem_cons_self _ _))
    cases ht : truthy w with
    | false => simp [itemsMissingId, hw, ht]
    | true =>
      have hrest : ∃ x ∈ rest, ∃ v, x.prop "id" = .ok v ∧ truthy v = false := by
        obtain ⟨x, hxm, v, hv, hf⟩ := hex
        rcases List.mem_cons.1 hxm with hxy | hxr
        · rw [hxy, hw] at hv
          simp only [Except.ok.injEq] at hv
          rw [← hv, ht] at hf
          exact absurd hf (by simp)
        · exact ⟨x, hxr, v, hv, hf⟩
      simp [itemsMissingId, hw, ht,
        ih (fun x hx => hnn x (List.mem_cons_of_mem _ hx)) hrest]

/-- C8 (amended): with `kiosk_id` present and `items` a non-empty array, a status other
than `completed` is answered with the status error whatever the items are (the status
check precedes the per-item `id` check); the missing-`id` error is the answer when the
status is absent or `completed` and some element has no `id`. -/
theorem createOrder_status_before_item_ids (now : Int) (body : CreateOrderBody) (ctx : Ctx)
    (s : Sys) (xs : List Json) (hk : truthy body.kiosk_id = true)
    (hi : body.items = some (.arr xs)) (hne : xs ≠ []) :
    ((body.status ≠ none ∧ body.status ≠ some (.str "completed")) →
      createOrder now body ctx s =
        { ctx := (ctx.setStatus 400).setBody
            (.error "Status can only be undefined or \"completed\"" none),
          sys := s, thrown := none }) ∧
    ((body.status = none ∨ body.status = some (.str "completed")) →
      (∀ x ∈ xs, x ≠ Json.null) →
      (∃ x ∈ xs, ∃ v, x.prop "id" = .ok v ∧ truthy v = false) →
      createOrder now body ctx s =
        { ctx := (ctx.setStatus 400).setBody (.error "Each item must have an id" none),
          sys := s, thrown := none }) := by
  have hlen : xs.length ≠ 0 := by simpa using hne
  have ht : truthy (some (Json.arr xs)) = true := rfl
  constructor
  · rintro ⟨h1, h2⟩
    have e1 : strictEq body.status none = false := by
      cases h : strictEq body.status none with
      | false => rfl
      | true => exact absurd ((strictEq_none_left _).1 h) h1
    have e2 : strictEq body.status (some (.str "completed")) = false := by
      cases h : strictEq body.status (some (.str "completed")) with
      | false => rfl
      | true => exact absurd ((strictEq_str_right _ _).1 h) h2
    simp [createOrder, hk, hi, ht, isArray, arrayElems, hlen, e1, e2]
  · intro hst hnn hex
    have hm := itemsMissingId_of_falsy xs hnn hex
    rcases hst with hst | hst <;>
      simp [createOrder, hk, hi, ht, hst, isArray, arrayElems, hlen, strictEq, hm]

theorem resolveItems_skip_good (db : Db) (pre rest : List Json)
    (hpre : ∀ y ∈ pre, ∃ it, Resolves db y it ∧ it.available = true) :
    (∀ shown, resolveItems db rest = .notFound shown →
      resolveItems db (pre ++ rest) = .notFound shown) ∧
    (∀ shown, resolveItems db rest = .outOfStock shown →
      resolveItems db (pre ++ rest) = .outOfStock shown) := by
  induction pre with
  | nil => simp
  | cons y pre ih =>
    obtain ⟨ih1, ih2⟩ := ih (fun z hz => hpre z (List.mem_cons_of_mem _ hz))
    obtain ⟨it, ⟨idv, shown0, hp, hl⟩, hav⟩ := hpre y (List.mem_cons_self _ _)
    constructor
    · intro shown h
      simp [resolveItems, hp, hl, hav, ih1 shown h]
    · intro shown h
      simp [resolveItems, hp, hl, hav, ih2 shown h]

/-- C9 (amended): for a request that passed validation and was not suppressed as a
duplicate, the answer is decided by the first submitted element that fails, in
submission order: 404 naming it when it does not resolve, 410 naming it when it
resolves to an item with `available = false`; in both cases the database is unchanged,
so no order row and no line item is created. -/
theorem createOrder_first_failing_item (now : Int) (body : CreateOrderBody) (ctx : Ctx)
    (s : Sys) (xs : List Json) (kid : Int) (kiosk : Kiosk)
    (hv : PassesValidation body s xs kid kiosk)
    (hnodup : duplicateOrder now body s.db kid = none)
    (pre post : List Json) (x : Json) (idv : JsVal) (shown : String) (found : Option Item)
    (hxs : xs = pre ++ x :: post)
    (hpre : ∀ y ∈ pre, ∃ it, Resolves s.db y it ∧ it.available = true)
    (hx : x.prop "id" = .ok idv)
    (hlook : lookupItem s.db idv = .ok (shown, found)) :
    (found = none →
      createOrder now body ctx s =
        { ctx := (ctx.setStatus 404).setBody (.error ("Item " ++ shown ++ " not found") none),
          sys := s, thrown := none }) ∧
    (∀ it, found = some it → it.available = false →
      createOrder now body ctx s =
        { ctx := (ctx.setStatus 410).setBody
            (.error ("Item " ++ shown ++ " is out of stock") none),
          sys := s, thrown := none }) := by
  have hcreate := createOrder_of_valid now body ctx s xs kid kiosk hv
  rw [hnodup] at hcreate
  have hel : arrayElems body.items = pre ++ x :: post := by rw [hv.items_given]; exact hxs
  obtain ⟨h404, h410⟩ := resolveItems_skip_good s.db pre (x :: post) hpre
  constructor
  · intro hnone
    subst hnone
    have hr := h404 shown (by simp [resolveItems, hx, hlook])
    rw [hcreate]
    simp [placeOrder, hel, hr]
  · intro it hsome hav
    subst hsome
    have hr := h410 shown (by simp [resolveItems, hx, hlook, hav])
    rw [hcreate]
    simp [placeOrder, hel, hr]

theorem resolves_mem (db : Db) (x : Json) (it : Item) (h : Resolves db x it) : it ∈ db.items := by
  obtain ⟨idv, shown, -, hl⟩ := h
  rcases idv with _ | j
  · simp [lookupItem] at hl
  · cases j <;> simp [lookupItem] at hl
    all_goals exact List.mem_of_find?_eq_some hl.2

theorem resolveItems_of_resolves (db : Db) (xs : List Json) (its : List Item)
    (hres : List.Forall₂ (Resolves db) xs its) (hav : ∀ it ∈ its, it.available = true) :
    resolveItems db xs = .resolved (List.zipWith (fun x it => (x, it.id)) xs its) := by
  induction hres with
  | nil => simp [resolveItems]
  | cons hhead _ ih =>
    obtain ⟨idv, shown, hp, hl⟩ := hhead
    have h1 := hav _ (List.mem_cons_self _ _)
    simp [resolveItems, hp, hl, h1, ih (fun it hit => hav it (List.mem_cons_of_mem _ hit))]

theorem filter_item_id_singleton (items : List Item)
    (hkey : items.Pairwise (fun a b => a.id ≠ b.id)) (it : Item) (hmem : it ∈ items) :
    items.filter (fun i => i.id == it.id) = [it] := by
  induction items with
  | nil => simp at hmem
  | cons a rest ih =>
    rw [List.pairwise_cons] at hkey
    by_cases ha : a.id = it.id
    · have hnot : ¬ it ∈ rest := fun hin => hkey.1 it hin ha
      have hai : a = it := by
        rcases List.mem_cons.1 hmem with h | h
        · exact h.symm
        · exact absurd h hnot
      subst hai
      have hrest : rest.filter (fun i => i.id == a.id) = [] := by
        rw [List.filter_eq_nil_iff]
        intro b hb
        simpa using fun hba : b.id = a.id => hkey.1 b hb hba.symm
      simp [List.filter_cons, hrest]
    · have hin : it ∈ rest := by
        rcases List.mem_cons.1 hmem with h | h
        · exact absurd (h ▸ rfl) ha
        · exact h
      simp [List.filter_cons, ha, ih hkey.2 hin]

theorem views_of_new_rows (items : List Item) (nid : Int)
    (hkey : items.Pairwise (fun a b => a.id ≠ b.id)) (xs : List Json) (its : List Item)
    (hres : List.Forall₂ (fun _ it => it ∈ items) xs its) :
    ((((List.zipWith (fun x it => (x, it.id)) xs its).map (orderItemRow nid)).filter
        (fun oi => oi.order_id == nid)).flatMap fun oi =>
      (items.filter (fun i => i.id == oi.item_id)).map fun i =>
        ({ order_id := oi.order_id, item_id := oi.item_id, customizations := oi.customizations,
           name := i.name, description := i.description } : OrderItemView)) =
    List.zipWith (fun x it =>
        ({ order_id := nid, item_id := it.id, customizations := givenCustomizations x,
           name := it.name, description := it.description } : OrderItemView)) xs its := by
  induction hres with
  | nil => simp
  | cons hhead _ ih =>
    simp [orderItemRow, List.filter_cons, filter_item_id_singleton items hkey _ hhead]
    simpa [orderItemRow] using ih

/-- C10: a request that passed validation, was not suppressed, and whose items all
resolve to available catalog items appends exactly one order row (the next id, the
given kiosk id, the kiosk's type, status `completed` when given and `pending` when
absent, the given profile or null) and exactly one line item per submitted element,
in order, with the resolved item id and the given customizations or null; the answer
is 201 with that row and exactly those items, as many as were submitted. The keys of
`items` are distinct and the next order id is unused. -/
theorem createOrder_success_postcondition (now : Int) (body : CreateOrderBody) (ctx : Ctx)
    (s : Sys) (xs : List Json) (kid : Int) (kiosk : Kiosk)
    (hv : PassesValidation body s xs kid kiosk)
    (hnodup : duplicateOrder now body s.db kid = none)
    (its : List Item) (hres : List.Forall₂ (Resolves s.db) xs its)
    (hav : ∀ it ∈ its, it.available = true)
    (hitemKey : s.db.items.Pairwise (fun a b => a.id ≠ b.id))
    (hfreshO : ∀ o ∈ s.db.orders, o.id ≠ s.db.nextOrderId)
    (hfreshI : ∀ oi ∈ s.db.order_items, oi.order_id ≠ s.db.nextOrderId) :
    (createOrder now body ctx s).thrown = none ∧
    (createOrder now body ctx s).ctx.status = 201 ∧
    (createOrder now body ctx s).sys.db.orders = s.db.orders ++
      [{ id := s.db.nextOrderId, kiosk_id := kid, kiosk_type := kiosk.type,
         status := (match body.status with
           | none => OrderStatus.pending
           | some _ => OrderStatus.completed),
         user_profile := (match body.user_profile with
           | none => Json.null
           | some doc => doc),
         survey_response := .null, created_at := now }] ∧
    (createOrder now body ctx s).sys.db.order_items = s.db.order_items ++
      List.zipWith (fun x it =>
        ({ order_id := s.db.nextOrderId, item_id := it.id,
           customizations := givenCustomizations x } : OrderItem)) xs its ∧
    (createOrder now body ctx s).ctx.body = some (.order
      { order :=
          { id := s.db.nextOrderId, kiosk_id := kid, kiosk_type := kiosk.type,
            status := (match body.status with
              | none => OrderStatus.pending
              | some _ => OrderStatus.completed),
            user_profile := (match body.user_profile with
              | none => Json.null
              | some doc => doc),
            survey_response := .null, created_at := now },
        items := List.zipWith (fun x it =>
          ({ order_id := s.db.nextOrderId, item_id := it.id,
             customizations := givenCustomizations x,
             name := it.name, description := it.description } : OrderItemView)) xs its }) ∧
    (List.zipWith (fun x it =>
          ({ order_id := s.db.nextOrderId, item_id := it.id,
             customizations := givenCustomizations x,
             name := it.name, description := it.description } : OrderItemView)) xs its).length
      = xs.length := by
  have hcreate := createOrder_of_valid now body ctx s xs kid kiosk hv
  rw [hnodup] at hcreate
  have hel : arrayElems body.items = xs := by rw [hv.items_given]; rfl
  have hpairs := resolveItems_of_resolves s.db xs its hres hav
  rw [← hel] at hpairs
  obtain ⟨co, hco, hplace⟩ := placeOrder_resolved now body kid kiosk ctx s _
    hv.status_allowed hpairs
  rw [hel] at hplace
  have hold : s.db.orders.find? (fun o => o.id == s.db.nextOrderId) = none := by
    rw [List.find?_eq_none]
    intro o ho
    simpa using hfreshO o ho
  have hcoeq : co = expectedOrderRow now body kid kiosk s.db := by
    rw [List.find?_append, hold] at hco
    simp [expectedOrderRow] at hco
    rw [← hco]
    rfl
  have holdItems : s.db.order_items.filter (fun oi => oi.order_id == s.db.nextOrderId) = [] := by
    rw [List.filter_eq_nil_iff]
    intro oi hoi
    simpa using hfreshI oi hoi
  have hmem : List.Forall₂ (fun _ it => it ∈ s.db.items) xs its :=
    hres.imp (fun x it h => resolves_mem s.db x it h)
  have hviews := views_of_new_rows s.db.items s.db.nextOrderId hitemKey xs its hmem
  have hlen : its.length = xs.length := hres.length_eq.symm
  have hrows : (List.zipWith (fun x it => (x, it.id)) xs its).map (orderItemRow s.db.nextOrderId)
      = List.zipWith (fun x it =>
        ({ order_id := s.db.nextOrderId, item_id := it.id,
           customizations := givenCustomizations x } : OrderItem)) xs its := by
    rw [List.map_zipWith]
    rfl
  rw [hcreate, hplace, hcoeq]
  refine ⟨rfl, ?_, rfl, ?_, ?_, ?_⟩
  · simp [Ctx.setStatus, Ctx.setBody]
  · simp only [hrows]
  · simp only [Ctx.setStatus, Ctx.setBody, orderItemViews, List.filter_append, holdItems,
      List.nil_append, hviews]
    rfl
  · simp [List.length_zipWith, hlen]

/-! ### Concrete instances -/

/-- C6 at the start-up state and `b = true`. -/
theorem setMaintenanceMode_changed_value_witness :
    true ≠ (Sys.init Db.empty).maintenanceMode ∧
    ((∃ s1, setMaintenanceModeAwaited none true (Sys.init Db.empty) = (.ok true, s1)) ∧
    ∀ (endResult : Option JsError) (v : Bool) (s1 : Sys),
      setMaintenanceModeAwaited endResult true (Sys.init Db.empty) = (.ok v, s1) →
        v = true ∧ s1.maintenanceMode = true ∧ getMaintenanceMode s1 = true ∧
        s1.isConnected = !true ∧
        (true = true → getConnection s1 = .error dbDisconnectedError) ∧
        (true = false → getConnection s1 = .ok s1.sql) ∧
        (true = true → (Sys.init Db.empty).isConnected = true → s1.sql.ended = true) ∧
        (true = false → (Sys.init Db.empty).isConnected = false →
          s1.sql = { serial := (Sys.init Db.empty).sql.serial + 1, ended := false })) :=
  ⟨by decide, setMaintenanceMode_changed_value (Sys.init Db.empty) true (by decide)⟩

theorem sampleDb_order_key : (Sys.init sampleDb).db.orders.Pairwise (fun a b => a.id ≠ b.id) := by
  simp [Sys.init, sampleDb]

theorem retryBody_valid :
    PassesValidation retryBody (Sys.init sampleDb) [.obj [("id", .num 1)]] 1 sampleKiosk :=
  ⟨rfl, rfl, by simp, Or.inl rfl, rfl, rfl, rfl, rfl⟩

/-- C7 (amended) at a retry by user `u1` one second after `storedOrder`. -/
theorem createOrder_duplicate_rule_witness :
    PassesValidation retryBody (Sys.init sampleDb) [.obj [("id", .num 1)]] 1 sampleKiosk ∧
    (Sys.init sampleDb).db.orders.Pairwise (fun a b => a.id ≠ b.id) ∧
    (((∃ R, IsNewestOrderOf (Sys.init sampleDb).db 1 R ∧
        createOrder 2000 retryBody (Ctx.fresh "/orders") (Sys.init sampleDb) =
          { ctx := ((Ctx.fresh "/orders").setStatus 201).setBody
              (.order { order := R, items := orderItemViews (Sys.init sampleDb).db R.id }),
            sys := Sys.init sampleDb, thrown := none }) ↔
      (∃ R, IsNewestOrderOf (Sys.init sampleDb).db 1 R ∧ 2000 - R.created_at ≤ 30000 ∧
        optChainId retryBody.user_profile = optChainId (some R.user_profile) ∧
        isPrimitive (optChainId retryBody.user_profile) = true)) ∧
    ((¬ ∃ R, IsNewestOrderOf (Sys.init sampleDb).db 1 R ∧ 2000 - R.created_at ≤ 30000 ∧
        optChainId retryBody.user_profile = optChainId (some R.user_profile) ∧
        isPrimitive (optChainId retryBody.user_profile) = true) →
      createOrder 2000 retryBody (Ctx.fresh "/orders") (Sys.init sampleDb) =
        placeOrder 2000 retryBody 1 sampleKiosk (Sys.init sampleDb).db (Ctx.fresh "/orders")
          (Sys.init sampleDb) ∧
      ∀ pairs, resolveItems (Sys.init sampleDb).db [.obj [("id", .num 1)]] = .resolved pairs →
        (createOrder 2000 retryBody (Ctx.fresh "/orders") (Sys.init sampleDb)).sys.db.orders =
          (Sys.init sampleDb).db.orders ++
            [expectedOrderRow 2000 retryBody 1 sampleKiosk (Sys.init sampleDb).db])) :=
  ⟨retryBody_valid, sampleDb_order_key,
    createOrder_duplicate_rule 2000 retryBody (Ctx.fresh "/orders") (Sys.init sampleDb)
      [.obj [("id", .num 1)]] 1 sampleKiosk retryBody_valid sampleDb_order_key⟩

/-- C7 (as stated) fails: the request and the newest order of kiosk 1, one second old,
carry the same object as `user_profile.id`, and a second order row is created and
returned. -/
theorem createOrder_duplicate_rule_counterexample :
    PassesValidation objectIdBody (Sys.init objectIdDb) [.obj [("id", .num 1)]] 1 sampleKiosk ∧
    IsNewestOrderOf objectIdDb 1 objectIdOrder ∧
    2000 - objectIdOrder.created_at ≤ 30000 ∧
    optChainId objectIdBody.user_profile = optChainId (some objectIdOrder.user_profile) ∧
    (createOrder 2000 objectIdBody (Ctx.fresh "/orders") (Sys.init objectIdDb)).sys.db.orders.length
      = 2 ∧
    ((createOrder 2000 objectIdBody (Ctx.fresh "/orders") (Sys.init objectIdDb)).ctx.body.bind
      Body.order?).map (fun v => v.order.id) = some 2 := by
  refine ⟨⟨rfl, rfl, by simp, Or.inl rfl, rfl, rfl, rfl, rfl⟩, ⟨?_, rfl, ?_⟩, by decide, rfl,
    by decide, by decide⟩
  · simp [objectIdDb]
  · intro o ho _
    simp [objectIdDb] at ho
    rw [ho]

/-- C8 (as stated) fails: an item without `id` together with status `pending` is
answered with the status error, not with the missing-`id` error. -/
theorem createOrder_validation_order_counterexample :
    (∃ x ∈ arrayElems badStatusBody.items, x.prop "id" = .ok none) ∧
    badStatusBody.status = some (.str "pending") ∧
    (createOrder 0 badStatusBody (Ctx.fresh "/orders") (Sys.init sampleDb)).ctx.status = 400 ∧
    (createOrder 0 badStatusBody (Ctx.fresh "/orders") (Sys.init sampleDb)).ctx.body.bind
      Body.errorMessage? = some "Status can only be undefined or \"completed\"" ∧
    (createOrder 0 badStatusBody (Ctx.fresh "/orders") (Sys.init sampleDb)).ctx.body.bind
      Body.errorMessage? ≠ some "Each item must have an id" := by
  refine ⟨⟨.obj [], by simp [arrayElems, badStatusBody], rfl⟩, rfl, by decide, by decide,
    by decide⟩

/-- C8 (amended) at the request with an item without `id` and status `pending`. -/
theorem createOrder_status_before_item_ids_witness :
    truthy badStatusBody.kiosk_id = true ∧
    badStatusBody.items = some (.arr [.obj []]) ∧
    ([Json.obj []] : List Json) ≠ [] ∧
    (((badStatusBody.status ≠ none ∧ badStatusBody.status ≠ some (.str "completed")) →
      createOrder 0 badStatusBody (Ctx.fresh "/orders") (Sys.init sampleDb) =
        { ctx := ((Ctx.fresh "/orders").setStatus 400).setBody
            (.error "Status can only be undefined or \"completed\"" none),
          sys := Sys.init sampleDb, thrown := none }) ∧
    ((badStatusBody.status = none ∨ badStatusBody.status = some (.str "completed")) →
      (∀ x ∈ [Json.obj []], x ≠ Json.null) →
      (∃ x ∈ [Json.obj []], ∃ v, x.prop "id" = .ok v ∧ truthy v = false) →
      createOrder 0 badStatusBody (Ctx.fresh "/orders") (Sys.init sampleDb) =
        { ctx := ((Ctx.fresh "/orders").setStatus 400).setBody
            (.error "Each item must have an id" none),
          sys := Sys.init sampleDb, thrown := none })) :=
  ⟨rfl, rfl, by simp,
    createOrder_status_before_item_ids 0 badStatusBody (Ctx.fresh "/orders") (Sys.init sampleDb)
      [.obj []] rfl rfl (by simp)⟩

theorem mixedFailureBody_valid :
    PassesValidation mixedFailureBody (Sys.init sampleDb)
      [.obj [("id", .num 2)], .obj [("id", .str "ghost")]] 1 sampleKiosk :=
  ⟨rfl, rfl, by simp, Or.inl rfl, rfl, rfl, rfl, rfl⟩

/-- C9 (as stated) fails: the second submitted item does not resolve, yet the answer
is 410 for the first item, which is out of stock, and not 404. -/
theorem createOrder_item_priority_counterexample :
    PassesValidation mixedFailureBody (Sys.init sampleDb)
      [.obj [("id", .num 2)], .obj [("id", .str "ghost")]] 1 sampleKiosk ∧
    duplicateOrder 50000 mixedFailureBody (Sys.init sampleDb).db 1 = none ∧
    (Json.obj [("id", .str "ghost")]).prop "id" = .ok (some (.str "ghost")) ∧
    lookupItem (Sys.init sampleDb).db (some (.str "ghost")) = .ok ("ghost", none) ∧
    (createOrder 50000 mixedFailureBody (Ctx.fresh "/orders") (Sys.init sampleDb)).ctx.status
      = 410 ∧
    (createOrder 50000 mixedFailureBody (Ctx.fresh "/orders") (Sys.init sampleDb)).ctx.body.bind
      Body.errorMessage? = some "Item 2 is out of stock" := by
  refine ⟨mixedFailureBody_valid, rfl, rfl, rfl, by decide, by decide⟩

theorem lateFailureBody_valid :
    PassesValidation lateFailureBody (Sys.init sampleDb)
      [.obj [("id", .str "donut")], .obj [("id", .num 2)]] 1 sampleKiosk :=
  ⟨rfl, rfl, by simp, Or.inl rfl, rfl, rfl, rfl, rfl⟩

theorem lateFailureBody_first_item_good :
    ∀ y ∈ [Json.obj [("id", .str "donut")]],
      ∃ it, Resolves (Sys.init sampleDb).db y it ∧ it.available = true := by
  intro y hy
  rw [List.mem_singleton] at hy
  subst hy
  exact ⟨donutItem, ⟨some (.str "donut"), "donut", rfl, rfl⟩, rfl⟩

/-- C9 (amended) at a request whose first item is fine and whose second item is out of
stock. -/
theorem createOrder_first_failing_item_witness :
    PassesValidation lateFailureBody (Sys.init sampleDb)
      [.obj [("id", .str "donut")], .obj [("id", .num 2)]] 1 sampleKiosk ∧
    duplicateOrder 50000 lateFailureBody (Sys.init sampleDb).db 1 = none ∧
    ([.obj [("id", .str "donut")], .obj [("id", .num 2)]] : List Json) =
      [.obj [("id", .str "donut")]] ++ Json.obj [("id", .num 2)] :: [] ∧
    (∀ y ∈ [Json.obj [("id", .str "donut")]],
      ∃ it, Resolves (Sys.init sampleDb).db y it ∧ it.available = true) ∧
    (Json.obj [("id", .num 2)]).prop "id" = .ok (some (.num 2)) ∧
    lookupItem (Sys.init sampleDb).db (some (.num 2)) = .ok ("2", some orangeItem) ∧
    ((some orangeItem = none →
      createOrder 50000 lateFailureBody (Ctx.fresh "/orders") (Sys.init sampleDb) =
        { ctx := ((Ctx.fresh "/orders").setStatus 404).setBody
            (.error ("Item " ++ "2" ++ " not found") none),
          sys := Sys.init sampleDb, thrown := none }) ∧
    (∀ it, some orangeItem = some it → it.available = false →
      createOrder 50000 lateFailureBody (Ctx.fresh "/orders") (Sys.init sampleDb) =
        { ctx := ((Ctx.fresh "/orders").setStatus 410).setBody
            (.error ("Item " ++ "2" ++ " is out of stock") none),
          sys := Sys.init sampleDb, thrown := none })) :=
  ⟨lateFailureBody_valid, rfl, rfl, lateFailureBody_first_item_good, rfl, rfl,
    createOrder_first_failing_item 50000 lateFailureBody (Ctx.fresh "/orders")
      (Sys.init sampleDb) [.obj [("id", .str "donut")], .obj [("id", .num 2)]] 1 sampleKiosk
      lateFailureBody_valid rfl [.obj [("id", .str "donut")]] [] (.obj [("id", .num 2)])
      (some (.num 2)) "2" (some orangeItem) rfl lateFailureBody_first_item_good rfl rfl⟩

theorem twoDonutsBody_valid :
    PassesValidation twoDonutsBody (Sys.init sampleDb)
      [.obj [("id", .num 1), ("customizations", .obj [("icing", .str "pink")])],
       .obj [("id", .str "donut")]] 1 sampleKiosk :=
  ⟨rfl, rfl, by simp, Or.inr rfl, rfl, rfl, rfl, rfl⟩

theorem twoDonutsBody_resolves :
    List.Forall₂ (Resolves (Sys.init sampleDb).db)
      [.obj [("id", .num 1), ("customizations", .obj [("icing", .str "pink")])],
       .obj [("id", .str "donut")]] [donutItem, donutItem] :=
  .cons ⟨some (.num 1), "1", rfl, rfl⟩ (.cons ⟨some (.str "donut"), "donut", rfl, rfl⟩ .nil)

theorem sampleDb_item_key : (Sys.init sampleDb).db.items.Pairwise (fun a b => a.id ≠ b.id) := by
  simp [Sys.init, sampleDb, sampleItems, donutItem, orangeItem]

theorem sampleDb_fresh_order_id :
    ∀ o ∈ (Sys.init sampleDb).db.orders, o.id ≠ (Sys.init sampleDb).db.nextOrderId := by
  intro o ho
  simp [Sys.init, sampleDb] at ho
  rw [ho]
  decide

theorem sampleDb_fresh_line_items :
    ∀ oi ∈ (Sys.init sampleDb).db.order_items,
      oi.order_id ≠ (Sys.init sampleDb).db.nextOrderId := by
  intro oi hoi
  simp [Sys.init, sampleDb] at hoi
  rw [hoi]
  decide

/-- C10 at a request for two donuts, one by id with customizations and one by slug. -/
theorem createOrder_success_postcondition_witness :
    PassesValidation twoDonutsBody (Sys.init sampleDb)
      [.obj [("id", .num 1), ("customizations", .obj [("icing", .str "pink")])],
       .obj [("id", .str "donut")]] 1 sampleKiosk ∧
    duplicateOrder 50000 twoDonutsBody (Sys.init sampleDb).db 1 = none ∧
    (createOrder 50000 twoDonutsBody (Ctx.fresh "/orders") (Sys.init sampleDb)).thrown = none ∧
    (createOrder 50000 twoDonutsBody (Ctx.fresh "/orders") (Sys.init sampleDb)).ctx.status
      = 201 ∧
    (createOrder 50000 twoDonutsBody (Ctx.fresh "/orders") (Sys.init sampleDb)).sys.db.orders =
      [storedOrder,
       { id := 2, kiosk_id := 1, kiosk_type := .sweet, status := .completed,
         user_profile := .null, survey_response := .null, created_at := 50000 }] ∧
    (createOrder 50000 twoDonutsBody (Ctx.fresh "/orders")
        (Sys.init sampleDb)).sys.db.order_items =
      [{ order_id := 1, item_id := 1, customizations := .null },
       { order_id := 2, item_id := 1, customizations := .obj [("icing", .str "pink")] },
       { order_id := 2, item_id := 1, customizations := .null }] :=
  ⟨twoDonutsBody_valid, rfl,
    (createOrder_success_postcondition 50000 twoDonutsBody (Ctx.fresh "/orders")
      (Sys.init sampleDb) _ 1 sampleKiosk twoDonutsBody_valid rfl [donutItem, donutItem]
      twoDonutsBody_resolves (by simp [donutItem]) sampleDb_item_key sampleDb_fresh_order_id
      sampleDb_fresh_line_items).1,
    (createOrder_success_postcondition 50000 twoDonutsBody (Ctx.fresh "/orders")
      (Sys.init sampleDb) _ 1 sampleKiosk twoDonutsBody_valid rfl [donutItem, donutItem]
      twoDonutsBody_resolves (by simp [donutItem]) sampleDb_item_key sampleDb_fresh_order_id
      sampleDb_fresh_line_items).2.1,
    (createOrder_success_postcondition 50000 twoDonutsBody (Ctx.fresh "/orders")
      (Sys.init sampleDb) _ 1 sampleKiosk twoDonutsBody_valid rfl [donutItem, donutItem]
      twoDonutsBody_resolves (by simp [donutItem]) sampleDb_item_key sampleDb_fresh_order_id
      sampleDb_fresh_line_items).2.2.1,
    (createOrder_success_postcondition 50000 twoDonutsBody (Ctx.fresh "/orders")
      (Sys.init sampleDb) _ 1 sampleKiosk twoDonutsBody_valid rfl [donutItem, donutItem]
      twoDonutsBody_resolves (by simp [donutItem]) sampleDb_item_key sampleDb_fresh_order_id
      sampleDb_fresh_line_items).2.2.2.1⟩

/-! ### Order update -/

theorem orderStatusIncludes_iff (st : Json) :
    orderStatusIncludes st = true ↔
      st = .str "pending" ∨ st = .str "completed" ∨ st = .str "canceled" := by
  cases st <;> simp [orderStatusIncludes, or_assoc]

theorem orderStatusIncludes_false_iff (st : Json) :
    orderStatusIncludes st = false ↔
      (st ≠ .str "pending" ∧ st ≠ .str "completed" ∧ st ≠ .str "canceled") := by
  rw [← Bool.not_eq_true, orderStatusIncludes_iff]
  simp only [not_or, ne_eq]

theorem surveyResponseInvalid_iff (sr : Json) :
    surveyResponseInvalid sr = true ↔ sr ≠ .null ∧ ∀ fields, sr ≠ .obj fields := by
  cases sr <;> simp [surveyResponseInvalid, notPlainObject]

theorem buildOrderUpdate_eq (body : UpdateOrderBody) :
    buildOrderUpdate body =
      match body.status, body.survey_response with
      | none, none => .rejected "No fields to update"
      | none, some sr =>
        if surveyResponseInvalid sr then
          .rejected "survey_response must be a JSON object or null"
        else .built [{ column := "survey_response", placeholder := 1, cast := none }] [sr]
      | some st, none =>
        if !orderStatusIncludes st then .rejected "Invalid order status"
        else .built [{ column := "status", placeholder := 1, cast := some "order_status" }] [st]
      | some st, some sr =>
        if !orderStatusIncludes st then .rejected "Invalid order status"
        else if surveyResponseInvalid sr then
          .rejected "survey_response must be a JSON object or null"
        else
          .built [{ column := "status", placeholder := 1, cast := some "order_status" },
                  { column := "survey_response", placeholder := 2, cast := none }] [st, sr] := by
  rcases body with ⟨_ | st, _ | sr⟩
  · simp [buildOrderUpdate, pushStatus, pushSurveyResponse]
  · cases h : surveyResponseInvalid sr <;>
      simp [buildOrderUpdate, pushStatus, pushSurveyResponse, h]
  · cases h : orderStatusIncludes st <;>
      simp [buildOrderUpdate, pushStatus, pushSurveyResponse, h]
  · cases h : orderStatusIncludes st <;> cases h2 : surveyResponseInvalid sr <;>
      simp [buildOrderUpdate, pushStatus, pushSurveyResponse, h, h2]

theorem buildOrderUpdate_rejected_iff (body : UpdateOrderBody) :
    (∃ m, buildOrderUpdate body = .rejected m) ↔
      ((body.status = none ∧ body.survey_response = none) ∨
       (∃ st, body.status = some st ∧
          st ≠ .str "pending" ∧ st ≠ .str "completed" ∧ st ≠ .str "canceled") ∨
       (∃ sr, body.survey_response = some sr ∧ sr ≠ .null ∧ ∀ fields, sr ≠ .obj fields)) := by
  constructor
  · rintro ⟨m, hm⟩
    rw [buildOrderUpdate_eq] at hm
    rcases body with ⟨_ | st, _ | sr⟩ <;> dsimp only at hm ⊢
    · exact Or.inl ⟨rfl, rfl⟩
    · cases h : surveyResponseInvalid sr
      · simp [h] at hm
      · exact Or.inr (Or.inr ⟨sr, rfl, (surveyResponseInvalid_iff sr).1 h⟩)
    · cases h : orderStatusIncludes st
      · exact Or.inr (Or.inl ⟨st, rfl, (orderStatusIncludes_false_iff st).1 h⟩)
      · simp [h] at hm
    · cases h : orderStatusIncludes st
      · exact Or.inr (Or.inl ⟨st, rfl, (orderStatusIncludes_false_iff st).1 h⟩)
      · cases h2 : surveyResponseInvalid sr
        · simp [h, h2] at hm
        · exact Or.inr (Or.inr ⟨sr, rfl, (surveyResponseInvalid_iff sr).1 h2⟩)
  · intro hc
    rw [buildOrderUpdate_eq]
    rcases body with ⟨bst, bsr⟩
    rcases hc with ⟨h1, h2⟩ | ⟨st, h1, h2⟩ | ⟨sr, h1, h2⟩
    · dsimp only at h1 h2
      subst h1
      subst h2
      exact ⟨_, rfl⟩
    · dsimp only at h1
      subst h1
      have hf := (orderStatusIncludes_false_iff st).2 h2
      cases bsr <;> exact ⟨"Invalid order status", by simp [hf]⟩
    · dsimp only at h1
      subst h1
      have ht := (surveyResponseInvalid_iff sr).2 h2
      rcases bst with _ | st
      · exact ⟨"survey_response must be a JSON object or null", by simp [ht]⟩
      · cases hf : orderStatusIncludes st
        · exact ⟨"Invalid order status", by simp [hf]⟩
        · exact ⟨"survey_response must be a JSON object or null", by simp [hf, ht]⟩

/-- C11: for a numeric id, `PATCH /orders/:id` answers 400 and leaves the state as it
was, whether or not the database is connected, exactly when neither `status` nor
`survey_response` is supplied, or `status` is supplied and is not one of `pending`,
`completed`, `canceled`, or `survey_response` is supplied and is neither `null` nor a
non-array object; the body `{}` gets the message `No fields to update`. -/
theorem updateOrder_rejects_iff (idParam : String) (id : Int) (body : UpdateOrderBody)
    (ctx : Ctx) (s : Sys) (hid : parseInt10 idParam = some id) :
    ((∃ m, updateOrder idParam body ctx s =
        { ctx := (ctx.setStatus 400).setBody (.error m none), sys := s, thrown := none }) ↔
      ((body.status = none ∧ body.survey_response = none) ∨
       (∃ st, body.status = some st ∧
          st ≠ .str "pending" ∧ st ≠ .str "completed" ∧ st ≠ .str "canceled") ∨
       (∃ sr, body.survey_response = some sr ∧ sr ≠ .null ∧ ∀ fields, sr ≠ .obj fields))) ∧
    ((body.status = none ∧ body.survey_response = none) →
      updateOrder idParam body ctx s =
        { ctx := (ctx.setStatus 400).setBody (.error "No fields to update" none),
          sys := s, thrown := none }) := by
  constructor
  · rw [← buildOrderUpdate_rejected_iff]
    constructor
    · rintro ⟨m, hm⟩
      cases hb : buildOrderUpdate body with
      | rejected m1 => exact ⟨m1, rfl⟩
      | built updates values =>
        exfalso
        cases hq : query s with
        | error e =>
          simp only [updateOrder, hid, hb, hq] at hm
          have := congrArg Outcome.thrown hm
          simp at this
        | ok db =>
          cases hx : execOrderUpdate db updates (values.length + 1) (values ++ [.num id]) with
          | error e =>
            simp only [updateOrder, hid, hb, hq, hx] at hm
            have := congrArg Outcome.thrown hm
            simp at this
          | ok res =>
            obtain ⟨db1, returned⟩ := res
            cases hr : returned.head? with
            | none =>
              simp only [updateOrder, hid, hb, hq, hx, hr] at hm
              have := congrArg (fun r => r.ctx.status) hm
              simp [Ctx.setStatus, Ctx.setBody] at this
            | some order =>
              simp only [updateOrder, hid, hb, hq, hx, hr] at hm
              have := congrArg (fun r => r.ctx.body) hm
              simp [Ctx.setStatus, Ctx.setBody] at this
    · rintro ⟨m, hm⟩
      exact ⟨m, by simp [updateOrder, hid, hm]⟩
  · rintro ⟨h1, h2⟩
    have hb : buildOrderUpdate body = .rejected "No fields to update" := by
      rw [buildOrderUpdate_eq]
      rcases body with ⟨bst, bsr⟩
      dsimp only at h1 h2
      subst h1
      subst h2
      rfl
    simp [updateOrder, hid, hb]

theorem updateRows_no_match (params : List Json) (updates : List SetClause) (id : Int)
    (l : List Order) (habs : ∀ o ∈ l, o.id ≠ id) :
    updateRows params updates id l = .ok (l, []) := by
  induction l with
  | nil => rfl
  | cons row rest ih =>
    have h1 : (row.id == id) = false := by
      simpa using habs row (List.mem_cons_self _ _)
    simp [updateRows, ih (fun o ho => habs o (List.mem_cons_of_mem _ ho)), h1]

theorem updateOrder_not_found (idParam : String) (id : Int) (body : UpdateOrderBody)
    (ctx : Ctx) (s : Sys) (updates : List SetClause) (values : List Json)
    (hid : parseInt10 idParam = some id)
    (hb : buildOrderUpdate body = .built updates values)
    (hq : query s = .ok s.db) (habs : ∀ o ∈ s.db.orders, o.id ≠ id) :
    updateOrder idParam body ctx s =
      { ctx := (ctx.setStatus 404).setBody (.error "Order not found" none),
        sys := s, thrown := none } := by
  have hx : execOrderUpdate s.db updates (values.length + 1) (values ++ [.num id]) =
      .ok (s.db, []) := by
    simp [execOrderUpdate, pgInteger, updateRows_no_match _ _ _ _ habs]
  simp [updateOrder, hid, hb, hq, hx]

theorem buildOrderUpdate_built_cases (body : UpdateOrderBody) (updates : List SetClause)
    (values : List Json) (h : buildOrderUpdate body = .built updates values) :
    (∃ sr, body = { status := none, survey_response := some sr } ∧
      surveyResponseInvalid sr = false ∧
      updates = [{ column := "survey_response", placeholder := 1, cast := none }] ∧
      values = [sr]) ∨
    (∃ st, body = { status := some st, survey_response := none } ∧
      orderStatusIncludes st = true ∧
      updates = [{ column := "status", placeholder := 1, cast := some "order_status" }] ∧
      values = [st]) ∨
    (∃ st sr, body = { status := some st, survey_response := some sr } ∧
      orderStatusIncludes st = true ∧ surveyResponseInvalid sr = false ∧
      updates = [{ column := "status", placeholder := 1, cast := some "order_status" },
                 { column := "survey_response", placeholder := 2, cast := none }] ∧
      values = [st, sr]) := by
  rw [buildOrderUpdate_eq] at h
  rcases body with ⟨_ | st, _ | sr⟩ <;> dsimp only at h
  · cases h
  · cases hs : surveyResponseInvalid sr
    · simp [hs] at h
      exact Or.inl ⟨sr, rfl, hs, h.1.symm, h.2.symm⟩
    · simp [hs] at h
  · cases hi : orderStatusIncludes st
    · simp [hi] at h
    · simp [hi] at h
      exact Or.inr (Or.inl ⟨st, rfl, hi, h.1.symm, h.2.symm⟩)
  · cases hi : orderStatusIncludes st
    · simp [hi] at h
    · cases hs : surveyResponseInvalid sr
      · simp [hi, hs] at h
        exact Or.inr (Or.inr ⟨st, sr, rfl, hi, hs, h.1.symm, h.2.symm⟩)
      · simp [hi, hs] at h

theorem ofJsVal_of_includes (st : Json) (h : orderStatusIncludes st = true) :
    ∃ v, OrderStatus.ofJsVal? (some st) = some v := by
  rcases (orderStatusIncludes_iff st).1 h with rfl | rfl | rfl
  · exact ⟨.pending, rfl⟩
  · exact ⟨.completed, rfl⟩
  · exact ⟨.canceled, rfl⟩

/-- C16: when the statement of `PATCH /orders/:id` is built, its `SET` list names
exactly the supplied columns, `status` before `survey_response`; the placeholder of
each clause is the position, counted from 1, of the value supplied for its column in
the parameter list; the `WHERE` placeholder is the last position, which holds the
order id; executed on a row, the clauses replace exactly the supplied columns by the
supplied values; and an id that matches no row is answered with 404. -/
theorem buildOrderUpdate_binds (body : UpdateOrderBody) (updates : List SetClause)
    (values : List Json) (id : Int) (h : buildOrderUpdate body = .built updates values) :
    updates.map SetClause.column =
      (match body.status with
        | some _ => ["status"]
        | none => []) ++
      (match body.survey_response with
        | some _ => ["survey_response"]
        | none => []) ∧
    (∀ c ∈ updates, 1 ≤ c.placeholder ∧
      (c.column = "status" → (values ++ [Json.num id])[c.placeholder - 1]? = body.status) ∧
      (c.column = "survey_response" →
        (values ++ [Json.num id])[c.placeholder - 1]? = body.survey_response)) ∧
    (values ++ [Json.num id])[(values.length + 1) - 1]? = some (Json.num id) ∧
    (values ++ [Json.num id]).length = values.length + 1 ∧
    (∀ row : Order, applySetClauses (values ++ [Json.num id]) row updates =
      .ok { row with
        status := (match body.status with
          | some st => (OrderStatus.ofJsVal? (some st)).getD row.status
          | none => row.status),
        survey_response := (match body.survey_response with
          | some sr => sr
          | none => row.survey_response) }) ∧
    (∀ (idParam : String) (ctx : Ctx) (s : Sys), parseInt10 idParam = some id →
      query s = .ok s.db → (∀ o ∈ s.db.orders, o.id ≠ id) →
      updateOrder idParam body ctx s =
        { ctx := (ctx.setStatus 404).setBody (.error "Order not found" none),
          sys := s, thrown := none }) := by
  have h404 : ∀ (idParam : String) (ctx : Ctx) (s : Sys), parseInt10 idParam = some id →
      query s = .ok s.db → (∀ o ∈ s.db.orders, o.id ≠ id) →
      updateOrder idParam body ctx s =
        { ctx := (ctx.setStatus 404).setBody (.error "Order not found" none),
          sys := s, thrown := none } :=
    fun idParam ctx s hid hq habs =>
      updateOrder_not_found idParam id body ctx s updates values hid h hq habs
  refine ⟨?_, ?_, by simp, by simp, ?_, h404⟩
  · rcases buildOrderUpdate_built_cases body updates values h with
      ⟨sr, rfl, -, rfl, rfl⟩ | ⟨st, rfl, -, rfl, rfl⟩ | ⟨st, sr, rfl, -, -, rfl, rfl⟩ <;> rfl
  · rcases buildOrderUpdate_built_cases body updates values h with
      ⟨sr, rfl, -, rfl, rfl⟩ | ⟨st, rfl, -, rfl, rfl⟩ | ⟨st, sr, rfl, -, -, rfl, rfl⟩
    · intro c hc
      rw [List.mem_singleton] at hc
      subst hc
      simp
    · intro c hc
      rw [List.mem_singleton] at hc
      subst hc
      simp
    · intro c hc
      simp only [List.mem_cons, List.mem_singleton, List.not_mem_nil, or_false] at hc
      rcases hc with rfl | rfl <;> simp
  · rcases buildOrderUpdate_built_cases body updates values h with
      ⟨sr, rfl, -, rfl, rfl⟩ | ⟨st, rfl, hi, rfl, rfl⟩ | ⟨st, sr, rfl, hi, -, rfl, rfl⟩
    · intro row
      simp [applySetClauses, applySetClause]
    · intro row
      obtain ⟨v, hv⟩ := ofJsVal_of_includes st hi
      simp [applySetClauses, applySetClause, hv]
    · intro row
      obtain ⟨v, hv⟩ := ofJsVal_of_includes st hi
      simp [applySetClauses, applySetClause, hv]

/-! ### Order queries -/

theorem latestInvalid_iff (l : String) :
    latestInvalid (some l) = true ↔
      (parseInt10 l = none ∨ ∃ n, parseInt10 l = some n ∧ n < 1) := by
  cases h : parseInt10 l <;> simp [latestInvalid, h]

theorem applyLimit_exact (l : String) (N : Int) (rows : List Order)
    (hN : parseInt10 l = some N) (hpos : 1 ≤ N) (hexact : N < 2 ^ 53) :
    applyLimit (some l) rows = .ok (rows.take N.toNat) := by
  have h1 : ¬ (N < 0 ∨ (2 : Int) ^ 63 ≤ N) := by
    intro h
    rcases h with h | h <;> omega
  have h2 : ¬ ((2 : Int) ^ 53 ≤ N) := by omega
  simp only [applyLimit, hN, h1, h2, if_false]

theorem latest_guard_rule (userMatches : String → Order → Bool) (l : String)
    (userId kioskType : Option String) (status : String) (ctx : Ctx) (s : Sys) :
    ((parseInt10 l = none ∨ ∃ n, parseInt10 l = some n ∧ n < 1) →
      listOrders userMatches (some l) userId kioskType ctx s =
        { ctx := (ctx.setStatus 400).setBody
            (.error "latest parameter must be a positive integer" none),
          sys := s, thrown := none } ∧
      ∃ m, listOrdersByStatus status (some l) ctx s =
        { ctx := (ctx.setStatus 400).setBody (.error m none), sys := s, thrown := none }) ∧
    (∀ N, parseInt10 l = some N → 1 ≤ N → N < 2 ^ 53 → query s = .ok s.db →
      ((kioskType = none ∨ kioskType = some "sweet" ∨ kioskType = some "juice") →
        ∃ os, listOrders userMatches (some l) userId kioskType ctx s =
            { ctx := ctx.setBody (.orders os), sys := s, thrown := none } ∧
          (os.length : Int) ≤ N) ∧
      (orderStatusIncludes (.str status) = true →
        ∃ os, listOrdersByStatus status (some l) ctx s =
            { ctx := ctx.setBody (.orders os), sys := s, thrown := none } ∧
          (os.length : Int) ≤ N)) := by
  refine ⟨?_, ?_⟩
  · intro h
    have hinv := (latestInvalid_iff l).2 h
    constructor
    · simp [listOrders, hinv]
    · cases hst : orderStatusIncludes (.str status)
      · exact ⟨"Invalid order status", by simp [listOrdersByStatus, hst]⟩
      · exact ⟨"latest parameter must be a positive integer",
          by simp [listOrdersByStatus, hst, hinv]⟩
  · intro N hN hpos hexact hq
    have hvalid : latestInvalid (some l) = false := by
      cases hinv : latestInvalid (some l) with
      | false => rfl
      | true =>
        rcases (latestInvalid_iff l).1 hinv with h | ⟨n, h, hlt⟩
        · rw [hN] at h
          cases h
        · rw [hN] at h
          cases h
          omega
    have hlen : ∀ rows : List Order, ((hydrateAll s.db (rows.take N.toNat)).length : Int) ≤ N := by
      intro rows
      have h1 : (hydrateAll s.db (rows.take N.toNat)).length ≤ N.toNat := by
        simp only [hydrateAll, List.length_map, List.length_take]
        exact Nat.min_le_left _ _
      omega
    constructor
    · intro hk
      have hkv : kioskTypeInvalid kioskType = false := by
        rcases hk with rfl | rfl | rfl <;> rfl
      refine ⟨hydrateAll s.db ((newestFirst (s.db.orders.filter
        (listCondition userMatches userId kioskType))).take N.toNat), ?_, hlen _⟩
      simp only [listOrders, hvalid, hkv, hq, Bool.false_eq_true, if_false,
        applyLimit_exact l N _ hN hpos hexact]
    · intro hst
      refine ⟨hydrateAll s.db ((newestFirst (s.db.orders.filter fun o =>
        decide (some o.status = OrderStatus.ofString? status))).take N.toNat), ?_, hlen _⟩
      simp only [listOrdersByStatus, hvalid, hq, hst, Bool.not_true, Bool.false_eq_true,
        if_false, applyLimit_exact l N _ hN hpos hexact]

/-- C17 (code defect): `5abc` and `3.7` are not decimal notations of a positive
integer, yet `GET /orders?latest=5abc` and `GET /orders/status/pending?latest=3.7`
are answered with 200 and a list; the guard looks only at the leading integer that
`parseInt` finds, 5 and 3. -/
theorem listOrders_accepts_non_integer_latest :
    isPositiveDecimal "5abc" = false ∧ isPositiveDecimal "3.7" = false ∧
    parseInt10 "5abc" = some 5 ∧ parseInt10 "3.7" = some 3 ∧
    (app (listOrders (fun _ _ => true) (some "5abc") none none) (Ctx.fresh "/orders")
      (Sys.init sampleDb)).ctx.status = 200 ∧
    ((app (listOrders (fun _ _ => true) (some "5abc") none none) (Ctx.fresh "/orders")
      (Sys.init sampleDb)).ctx.body.bind Body.orders?).map List.length = some 1 ∧
    (app (listOrdersByStatus "pending" (some "3.7")) (Ctx.fresh "/orders/status/pending")
      (Sys.init sampleDb)).ctx.status = 200 ∧
    ((app (listOrdersByStatus "pending" (some "3.7")) (Ctx.fresh "/orders/status/pending")
      (Sys.init sampleDb)).ctx.body.bind Body.orders?).map List.length = some 1 := by
  refine ⟨?_, ?_, ?_, ?_, ?_, ?_, ?_, ?_⟩ <;> decide

theorem latest_white_space_and_range :
    parseInt10 "\u00a05" = some 5 ∧ parseInt10 "\x0b5" = some 5 ∧
    (app (listOrders (fun _ _ => true) (some "\u00a05") none none) (Ctx.fresh "/orders")
      (Sys.init sampleDb)).ctx.status = 200 ∧
    parseInt10 "9007199254740993" = some 9007199254740992 ∧
    parseInt10 "99999999999999999999" = some 100000000000000000000 ∧
    (listOrders (fun _ _ => true) (some "99999999999999999999") none none (Ctx.fresh "/orders")
      (Sys.init sampleDb)).thrown = some limitError ∧
    (app (listOrders (fun _ _ => true) (some "99999999999999999999") none none)
      (Ctx.fresh "/orders") (Sys.init sampleDb)).ctx.status = 500 ∧
    (app (listOrdersByStatus "pending" (some "99999999999999999999"))
      (Ctx.fresh "/orders/status/pending") (Sys.init sampleDb)).ctx.status = 500 := by
  refine ⟨?_, ?_, ?_, ?_, ?_, ?_, ?_, ?_⟩ <;> decide!

/-! ### Kiosk current order -/

theorem minByCreatedAt_eq_none (l : List Order) : minByCreatedAt l = none ↔ l = [] := by
  cases l with
  | nil => simp [minByCreatedAt]
  | cons o rest =>
    simp only [minByCreatedAt]
    cases minByCreatedAt rest with
    | none => simp
    | some best => by_cases h : o.created_at ≤ best.created_at <;> simp [h]

theorem minByCreatedAt_spec (l : List Order) (r : Order) (h : minByCreatedAt l = some r) :
    r ∈ l ∧ ∀ o ∈ l, r.created_at ≤ o.created_at := by
  induction l generalizing r with
  | nil => simp [minByCreatedAt] at h
  | cons o rest ih =>
    simp only [minByCreatedAt] at h
    cases hm : minByCreatedAt rest with
    | none =>
      rw [hm] at h
      have hr : rest = [] := (minByCreatedAt_eq_none rest).1 hm
      simp only [Option.some.injEq] at h
      subst h
      subst hr
      simp
    | some best =>
      rw [hm] at h
      obtain ⟨hmem, hmin⟩ := ih best hm
      by_cases hle : o.created_at ≤ best.created_at
      · simp only [hle, if_true, Option.some.injEq] at h
        subst h
        refine ⟨List.mem_cons_self _ _, ?_⟩
        intro o2 ho2
        rcases List.mem_cons.1 ho2 with h2 | h2
        · rw [h2]
        · exact le_trans hle (hmin o2 h2)
      · simp only [hle, if_false, Option.some.injEq] at h
        subst h
        refine ⟨List.mem_cons_of_mem _ hmem, ?_⟩
        intro o2 ho2
        rcases List.mem_cons.1 ho2 with h2 | h2
        · rw [h2]
          exact le_of_lt (not_le.1 hle)
        · exact hmin o2 h2

theorem hasItemOfType_iff (db : Db) (ty : KioskType) (o : Order) :
    hasItemOfType db ty o = true ↔
      ∃ oi ∈ db.order_items, ∃ i ∈ db.items,
        oi.order_id = o.id ∧ i.id = oi.item_id ∧ i.kiosk_type = ty := by
  simp only [hasItemOfType, List.any_eq_true, Bool.and_eq_true, beq_iff_eq]
  constructor
  · rintro ⟨oi, hoi, h1, i, hi, h2, h3⟩
    exact ⟨oi, hoi, i, hi, h1, h2, h3⟩
  · rintro ⟨oi, hoi, i, hi, h1, h2, h3⟩
    exact ⟨oi, hoi, h1, i, hi, h2, h3⟩

theorem mem_matchingOrders_iff (db : Db) (K : Kiosk) (o : Order) :
    o ∈ matchingOrders db K ↔ InQueue db K o := by
  simp only [matchingOrders, List.mem_filter, Bool.and_eq_true, beq_iff_eq, decide_eq_true_eq,
    hasItemOfType_iff, InQueue, scopeKioskId]
  constructor
  · rintro ⟨h1, ⟨h2, h3⟩, h4⟩
    exact ⟨h1, h2, h4, h3⟩
  · rintro ⟨h1, h2, h4, h3⟩
    exact ⟨h1, ⟨h2, h3⟩, h4⟩

theorem mem_typedItemViews_iff (db : Db) (orderId : Int) (ty : KioskType) (w : OrderItemView) :
    w ∈ typedItemViews db orderId ty ↔
      ∃ oi ∈ db.order_items, ∃ i ∈ db.items,
        oi.order_id = orderId ∧ i.id = oi.item_id ∧ i.kiosk_type = ty ∧
        w = { order_id := oi.order_id, item_id := oi.item_id,
              customizations := oi.customizations, name := i.name,
              description := i.description } := by
  simp only [typedItemViews, List.mem_flatMap, List.mem_map, List.mem_filter, Bool.and_eq_true,
    beq_iff_eq]
  constructor
  · rintro ⟨oi, ⟨hoi, h1⟩, i, ⟨hi, h2, h3⟩, hw⟩
    exact ⟨oi, hoi, i, hi, h1, h2, h3, hw.symm⟩
  · rintro ⟨oi, hoi, i, hi, h1, h2, h3, hw⟩
    exact ⟨oi, ⟨hoi, h1⟩, i, ⟨hi, h2, h3⟩, hw.symm⟩

theorem getKiosk_found (idParam : String) (id : Int) (ctx : Ctx) (s : Sys) (K : Kiosk)
    (hid : parseInt10 idParam = some id) (hq : query s = .ok s.db)
    (hK : findKiosk s.db id = some K) :
    getKiosk idParam ctx s =
      { ctx := ctx.setBody (.kiosk K ((currentOrderOf s.db K).map fun o =>
          ({ order := o, items := typedItemViews s.db o.id K.type } : OrderView))),
        sys := s, thrown := none } := by
  simp [getKiosk, hid, hq, hK]

/-- C12: for a stored kiosk `K` on a connected database, the `currentOrder` of
`GET /kiosks/:id` is `null` exactly when no order is in the queue of `K` (pending,
of the kiosk `K` serves, with an item of the type of `K`), and otherwise it is an
order of that queue whose `created_at` is minimal in the queue. -/
theorem getKiosk_current_order_fifo (idParam : String) (id : Int) (ctx : Ctx) (s : Sys)
    (K : Kiosk) (hid : parseInt10 idParam = some id) (hq : query s = .ok s.db)
    (hK : findKiosk s.db id = some K) :
    ∃ cur : Option OrderView,
      getKiosk idParam ctx s =
        { ctx := ctx.setBody (.kiosk K cur), sys := s, thrown := none } ∧
      (cur = none ↔ ∀ o, ¬ InQueue s.db K o) ∧
      (∀ v, cur = some v →
        InQueue s.db K v.order ∧
        ∀ o, InQueue s.db K o → v.order.created_at ≤ o.created_at) := by
  refine ⟨_, getKiosk_found idParam id ctx s K hid hq hK, ?_, ?_⟩
  · rw [Option.map_eq_none']
    unfold currentOrderOf
    rw [minByCreatedAt_eq_none, List.eq_nil_iff_forall_not_mem]
    exact forall_congr' fun o => not_congr (mem_matchingOrders_iff s.db K o)
  · intro v hv
    rw [Option.map_eq_some'] at hv
    obtain ⟨o, ho, rfl⟩ := hv
    obtain ⟨hmem, hmin⟩ := minByCreatedAt_spec _ o ho
    refine ⟨(mem_matchingOrders_iff s.db K o).1 hmem, ?_⟩
    intro o2 ho2
    exact hmin o2 ((mem_matchingOrders_iff s.db K o2).2 ho2)

/-- C13: when the `currentOrder` of `GET /kiosks/:id` is not `null`, its `items` are
exactly the line items of that order joined with an item of the type of the kiosk:
every attached item is such a line item, every such line item is attached, and the
list is not empty. -/
theorem getKiosk_current_order_items (idParam : String) (id : Int) (ctx : Ctx) (s : Sys)
    (K : Kiosk) (hid : parseInt10 idParam = some id) (hq : query s = .ok s.db)
    (hK : findKiosk s.db id = some K) :
    ∃ cur : Option OrderView,
      getKiosk idParam ctx s =
        { ctx := ctx.setBody (.kiosk K cur), sys := s, thrown := none } ∧
      ∀ v, cur = some v →
        v.items ≠ [] ∧
        ∀ w, w ∈ v.items ↔
          ∃ oi ∈ s.db.order_items, ∃ i ∈ s.db.items,
            oi.order_id = v.order.id ∧ i.id = oi.item_id ∧ i.kiosk_type = K.type ∧
            w = { order_id := oi.order_id, item_id := oi.item_id,
                  customizations := oi.customizations, name := i.name,
                  description := i.description } := by
  refine ⟨_, getKiosk_found idParam id ctx s K hid hq hK, ?_⟩
  intro v hv
  rw [Option.map_eq_some'] at hv
  obtain ⟨o, ho, rfl⟩ := hv
  obtain ⟨hmem, -⟩ := minByCreatedAt_spec _ o ho
  obtain ⟨-, -, -, oi, hoi, i, hi, h1, h2, h3⟩ := (mem_matchingOrders_iff s.db K o).1 hmem
  refine ⟨?_, fun w => mem_typedItemViews_iff s.db o.id K.type w⟩
  intro hnil
  have hin := (mem_typedItemViews_iff s.db o.id K.type _).2 ⟨oi, hoi, i, hi, h1, h2, h3, rfl⟩
  simp only at hnil
  rw [hnil] at hin
  exact absurd hin (List.not_mem_nil _)

/-! ### Kiosk invariant -/

theorem createKiosk_reference_rules (newId now : Int) (body : KioskBody) (ctx : Ctx) (s : Sys)
    (htype : body.type = some (.str "sweet") ∨ body.type = some (.str "juice")) :
    (body.role = some (.str "fulfill") → truthy body.client_kiosk_id = false →
      createKiosk newId now body ctx s =
        { ctx := (ctx.setStatus 400).setBody
            (.error "client_kiosk_id is required when role is 'fulfill'" none),
          sys := s, thrown := none }) ∧
    ((body.role = some (.str "order") ∨ body.role = some (.str "customize")) →
      truthy body.client_kiosk_id = true →
      createKiosk newId now body ctx s =
        { ctx := (ctx.setStatus 400).setBody
            (.error "client_kiosk_id is not allowed when role is not 'fulfill'" none),
          sys := s, thrown := none }) ∧
    (body.role = some (.str "fulfill") → truthy body.client_kiosk_id = true →
      query s = .ok s.db → findKioskByParam s.db body.client_kiosk_id = .ok none →
      createKiosk newId now body ctx s =
        { ctx := (ctx.setStatus 400).setBody (.error "Referenced kiosk not found" none),
          sys := s, thrown := none }) := by
  have htt : truthy body.type = true := by
    rcases htype with h | h <;> rw [h] <;> rfl
  have hti : kioskTypeIncludes body.type = true := by
    rcases htype with h | h <;> rw [h] <;> rfl
  refine ⟨fun hr hc => ?_, fun hr hc => ?_, fun hr hc hq hf => ?_⟩
  · have h1 : truthy body.role = true := by rw [hr]; rfl
    have h2 : kioskRoleIncludes body.role = true := by rw [hr]; rfl
    have h3 : strictEq body.role (some (.str "fulfill")) = true := by rw [hr]; rfl
    simp [createKiosk, htt, hti, h1, h2, h3, hc]
  · have h1 : truthy body.role = true := by
      rcases hr with h | h <;> rw [h] <;> rfl
    have h2 : kioskRoleIncludes body.role = true := by
      rcases hr with h | h <;> rw [h] <;> rfl
    have h3 : strictEq body.role (some (.str "fulfill")) = false := by
      rcases hr with h | h <;> rw [h] <;> rfl
    simp [createKiosk, htt, hti, h1, h2, h3, hc]
  · have h1 : truthy body.role = true := by rw [hr]; rfl
    have h2 : kioskRoleIncludes body.role = true := by rw [hr]; rfl
    have h3 : strictEq body.role (some (.str "fulfill")) = true := by rw [hr]; rfl
    simp [createKiosk, htt, hti, h1, h2, h3, hc, hq, createReferenceMissing, hf]

/-- C14 (code defect): `PATCH /kiosks/1` with body `{client_kiosk_id: 2}` on a store
that satisfies the kiosk invariant succeeds with 200 and leaves kiosk 1, whose role is
`order`, with `client_kiosk_id = 2`; the role rules are checked only when `role` is
part of the body. -/
theorem patchKiosk_breaks_kiosk_invariant :
    kioskInvariant twoKioskDb = true ∧
    (patchKiosk "1" clientOnlyBody (Ctx.fresh "/kiosks/1") (Sys.init twoKioskDb)).ctx.status
      = 200 ∧
    (patchKiosk "1" clientOnlyBody (Ctx.fresh "/kiosks/1") (Sys.init twoKioskDb)).thrown
      = none ∧
    ((patchKiosk "1" clientOnlyBody (Ctx.fresh "/kiosks/1")
        (Sys.init twoKioskDb)).ctx.body.bind Body.kioskOnly?).map
      (fun k => (k.id, k.role, k.client_kiosk_id)) = some (1, KioskRole.order, some 2) ∧
    kioskInvariant
      (patchKiosk "1" clientOnlyBody (Ctx.fresh "/kiosks/1") (Sys.init twoKioskDb)).sys.db
      = false := by
  refine ⟨?_, ?_, ?_, ?_, ?_⟩ <;> decide

/-! ### Flag and pool -/

theorem setMaintenanceModeAwaited_in_step (endResult : Option JsError) (b : Bool) (s : Sys)
    (h : s.isConnected = !s.maintenanceMode) :
    (setMaintenanceModeAwaited endResult b s).2.isConnected =
      !(setMaintenanceModeAwaited endResult b s).2.maintenanceMode := by
  obtain ⟨mode, pool, conn, db⟩ := s
  simp only at h
  subst h
  cases b <;> cases mode <;> cases endResult <;>
    simp [setMaintenanceModeAwaited, setMaintenanceMode, SetModeTask.resume,
      reconnectDatabase, disconnectDatabaseBegin, disconnectDatabaseFinish]

/-- C18: from the start-up state, after any finite sequence of `setMaintenanceMode`
calls, each run to completion before the next and each with `sql.end` resolving or
rejecting, `isConnected` is true exactly when the flag is false; and a call
`setMaintenanceMode(true)` that fails leaves the flag false and `isConnected` as it
was, which is what happens when `sql.end` rejects in a connected state. -/
theorem flag_and_pool_in_step (db : Db) (calls : List (Bool × Option JsError)) :
    ((runSetModes calls (Sys.init db)).isConnected = true ↔
      (runSetModes calls (Sys.init db)).maintenanceMode = false) ∧
    (∀ (s : Sys) (endResult : Option JsError) (e : JsError) (s1 : Sys),
      setMaintenanceModeAwaited endResult true s = (.error e, s1) →
        s1.maintenanceMode = false ∧ s1.isConnected = s.isConnected) ∧
    (∀ (s : Sys) (e : JsError), s.maintenanceMode = false → s.isConnected = true →
      ∃ s1, setMaintenanceModeAwaited (some e) true s = (.error e, s1) ∧
        s1.maintenanceMode = false ∧ s1.isConnected = true) := by
  refine ⟨?_, ?_, ?_⟩
  · have hinv : ∀ (cs : List (Bool × Option JsError)) (s : Sys),
        s.isConnected = !s.maintenanceMode →
        (runSetModes cs s).isConnected = !(runSetModes cs s).maintenanceMode := by
      intro cs
      induction cs with
      | nil => exact fun s h => h
      | cons c rest ih =>
        intro s h
        exact ih _ (setMaintenanceModeAwaited_in_step c.2 c.1 s h)
    have h := hinv calls (Sys.init db) rfl
    rw [h]
    cases (runSetModes calls (Sys.init db)).maintenanceMode <;> simp
  · intro s endResult e s1 hrun
    obtain ⟨mode, pool, conn, db0⟩ := s
    cases mode <;> cases conn <;> cases endResult <;>
      simp [setMaintenanceModeAwaited, setMaintenanceMode, SetModeTask.resume,
        disconnectDatabaseBegin, disconnectDatabaseFinish] at hrun
    all_goals
      obtain ⟨-, hs⟩ := hrun
      subst hs
      exact ⟨rfl, rfl⟩
  · intro s e hm hc
    obtain ⟨mode, pool, conn, db0⟩ := s
    simp only at hm hc
    subst hm
    subst hc
    exact ⟨_, rfl, rfl, rfl⟩

theorem runSetModes_in_step (calls : List (Bool × Option JsError)) (s : Sys)
    (h : s.isConnected = !s.maintenanceMode) :
    (runSetModes calls s).isConnected = !(runSetModes calls s).maintenanceMode := by
  induction calls generalizing s with
  | nil => exact h
  | cons c rest ih => exact ih _ (setMaintenanceModeAwaited_in_step c.2 c.1 s h)

theorem getConnection_between_mode_changes (db : Db) (calls : List (Bool × Option JsError))
    (hflag : (runSetModes calls (Sys.init db)).maintenanceMode = false) :
    getConnection (runSetModes calls (Sys.init db)) =
      .ok (runSetModes calls (Sys.init db)).sql := by
  have h := runSetModes_in_step calls (Sys.init db) rfl
  rw [hflag] at h
  simp [getConnection, h]

/-! ### Error bodies -/

theorem shape_listOrders (um : String → Order → Bool) (latest userId kioskType : Option String)
    (path : String) (s : Sys) :
    (listOrders um latest userId kioskType (Ctx.fresh path) s).thrown ≠ none ∨
    (listOrders um latest userId kioskType (Ctx.fresh path) s).ctx.status < 400 ∨
    ∃ m, (listOrders um latest userId kioskType (Ctx.fresh path) s).ctx.body =
      some (.error m none) := by
  unfold listOrders
  split
  · simp [Ctx.setStatus, Ctx.setBody, Ctx.fresh]
  · split
    · simp [Ctx.setStatus, Ctx.setBody, Ctx.fresh]
    · cases hq : query s with
      | error e => simp
      | ok db =>
        cases hl : applyLimit latest
            (newestFirst (db.orders.filter (listCondition um userId kioskType))) with
        | error e => simp [hl]
        | ok orders => simp [hl, Ctx.setBody, Ctx.fresh]

theorem shape_listOrdersByStatus (status : String) (latest : Option String)
    (path : String) (s : Sys) :
    (listOrdersByStatus status latest (Ctx.fresh path) s).thrown ≠ none ∨
    (listOrdersByStatus status latest (Ctx.fresh path) s).ctx.status < 400 ∨
    ∃ m, (listOrdersByStatus status latest (Ctx.fresh path) s).ctx.body =
      some (.error m none) := by
  unfold listOrdersByStatus
  split
  · simp [Ctx.setStatus, Ctx.setBody, Ctx.fresh]
  · split
    · simp [Ctx.setStatus, Ctx.setBody, Ctx.fresh]
    · cases hq : query s with
      | error e => simp
      | ok db =>
        cases hl : applyLimit latest (newestFirst (db.orders.filter fun o =>
            decide (some o.status = OrderStatus.ofString? status))) with
        | error e => simp [hl]
        | ok orders => simp [hl, Ctx.setBody, Ctx.fresh]

theorem shape_getOrder (idParam : String) (path : String) (s : Sys) :
    (getOrder idParam (Ctx.fresh path) s).thrown ≠ none ∨
    (getOrder idParam (Ctx.fresh path) s).ctx.status < 400 ∨
    ∃ m, (getOrder idParam (Ctx.fresh path) s).ctx.body = some (.error m none) := by
  unfold getOrder
  repeat' split
  all_goals simp [Ctx.setStatus, Ctx.setBody, Ctx.fresh]

theorem shape_placeOrder (now : Int) (body : CreateOrderBody) (kid : Int) (kiosk : Kiosk)
    (db : Db) (path : String) (s : Sys) :
    (placeOrder now body kid kiosk db (Ctx.fresh path) s).thrown ≠ none ∨
    (placeOrder now body kid kiosk db (Ctx.fresh path) s).ctx.status < 400 ∨
    ∃ m, (placeOrder now body kid kiosk db (Ctx.fresh path) s).ctx.body =
      some (.error m none) := by
  unfold placeOrder
  repeat' split
  all_goals simp [Ctx.setStatus, Ctx.setBody, Ctx.fresh]

theorem shape_createOrder (now : Int) (body : CreateOrderBody) (path : String) (s : Sys) :
    (createOrder now body (Ctx.fresh path) s).thrown ≠ none ∨
    (createOrder now body (Ctx.fresh path) s).ctx.status < 400 ∨
    ∃ m, (createOrder now body (Ctx.fresh path) s).ctx.body = some (.error m none) := by
  unfold createOrder
  repeat' split
  all_goals first
    | exact shape_placeOrder _ _ _ _ _ _ _
    | simp [Ctx.setStatus, Ctx.setBody, Ctx.fresh]

theorem shape_updateOrder (idParam : String) (body : UpdateOrderBody) (path : String)
    (s : Sys) :
    (updateOrder idParam body (Ctx.fresh path) s).thrown ≠ none ∨
    (updateOrder idParam body (Ctx.fresh path) s).ctx.status < 400 ∨
    ∃ m, (updateOrder idParam body (Ctx.fresh path) s).ctx.body = some (.error m none) := by
  unfold updateOrder
  repeat' split
  all_goals simp [Ctx.setStatus, Ctx.setBody, Ctx.fresh]

theorem shape_deleteOrder (idParam : String) (path : String) (s : Sys) :
    (deleteOrder idParam (Ctx.fresh path) s).thrown ≠ none ∨
    (deleteOrder idParam (Ctx.fresh path) s).ctx.status < 400 ∨
    ∃ m, (deleteOrder idParam (Ctx.fresh path) s).ctx.body = some (.error m none) := by
  unfold deleteOrder
  repeat' split
  all_goals simp [Ctx.setStatus, Ctx.setBody, Ctx.fresh]

theorem shape_listKiosks (path : String) (s : Sys) :
    (listKiosks (Ctx.fresh path) s).thrown ≠ none ∨
    (listKiosks (Ctx.fresh path) s).ctx.status < 400 ∨
    ∃ m, (listKiosks (Ctx.fresh path) s).ctx.body = some (.error m none) := by
  unfold listKiosks
  repeat' split
  all_goals simp [Ctx.setStatus, Ctx.setBody, Ctx.fresh]

theorem shape_getKiosk (idParam : String) (path : String) (s : Sys) :
    (getKiosk idParam (Ctx.fresh path) s).thrown ≠ none ∨
    (getKiosk idParam (Ctx.fresh path) s).ctx.status < 400 ∨
    ∃ m, (getKiosk idParam (Ctx.fresh path) s).ctx.body = some (.error m none) := by
  unfold getKiosk
  repeat' split
  all_goals simp [Ctx.setStatus, Ctx.setBody, Ctx.fresh]

theorem shape_createKiosk (newId now : Int) (body : KioskBody) (path : String) (s : Sys) :
    (createKiosk newId now body (Ctx.fresh path) s).thrown ≠ none ∨
    (createKiosk newId now body (Ctx.fresh path) s).ctx.status < 400 ∨
    ∃ m, (createKiosk newId now body (Ctx.fresh path) s).ctx.body = some (.error m none) := by
  unfold createKiosk
  repeat' split
  all_goals simp [Ctx.setStatus, Ctx.setBody, Ctx.fresh]

theorem shape_patchKiosk (idParam : String) (body : KioskBody) (path : String) (s : Sys) :
    (patchKiosk idParam body (Ctx.fresh path) s).thrown ≠ none ∨
    (patchKiosk idParam body (Ctx.fresh path) s).ctx.status < 400 ∨
    ∃ m, (patchKiosk idParam body (Ctx.fresh path) s).ctx.body = some (.error m none) := by
  unfold patchKiosk
  repeat' split
  all_goals simp [Ctx.setStatus, Ctx.setBody, Ctx.fresh]

theorem shape_deleteKiosk (idParam : String) (path : String) (s : Sys) :
    (deleteKiosk idParam (Ctx.fresh path) s).thrown ≠ none ∨
    (deleteKiosk idParam (Ctx.fresh path) s).ctx.status < 400 ∨
    ∃ m, (deleteKiosk idParam (Ctx.fresh path) s).ctx.body = some (.error m none) := by
  unfold deleteKiosk
  repeat' split
  all_goals simp [Ctx.setStatus, Ctx.setBody, Ctx.fresh]

theorem shape_order_or_kiosk (op : Operation) (hop : op.isOrderOrKiosk = true) (path : String)
    (s : Sys) :
    (op.handler (Ctx.fresh path) s).thrown ≠ none ∨
    (op.handler (Ctx.fresh path) s).ctx.status < 400 ∨
    ∃ m, (op.handler (Ctx.fresh path) s).ctx.body = some (.error m none) := by
  cases op with
  | listOrders um latest userId kioskType => exact shape_listOrders um latest userId kioskType path s
  | listOrdersByStatus status latest => exact shape_listOrdersByStatus status latest path s
  | getOrder idParam => exact shape_getOrder idParam path s
  | createOrder now body => exact shape_createOrder now body path s
  | updateOrder idParam body => exact shape_updateOrder idParam body path s
  | deleteOrder idParam => exact shape_deleteOrder idParam path s
  | listKiosks => exact shape_listKiosks path s
  | getKiosk idParam => exact shape_getKiosk idParam path s
  | createKiosk newId now body => exact shape_createKiosk newId now body path s
  | patchKiosk idParam body => exact shape_patchKiosk idParam body path s
  | deleteKiosk idParam => exact shape_deleteKiosk idParam path s
  | getMaintenance => simp [Operation.isOrderOrKiosk] at hop
  | postMaintenance enabled => simp [Operation.isOrderOrKiosk] at hop

theorem shape_maintenance (op : Operation) (hop : op.isOrderOrKiosk = false) (path : String)
    (s : Sys) :
    (op.handler (Ctx.fresh path) s).thrown = none ∧
    ((op.handler (Ctx.fresh path) s).ctx.status < 400 ∨
      ∃ m, (op.handler (Ctx.fresh path) s).ctx.body =
        some (.error m (some (op.handler (Ctx.fresh path) s).ctx.status))) := by
  cases op with
  | getMaintenance =>
    simp [Operation.handler, getMaintenance, Ctx.setBody, Ctx.fresh]
  | postMaintenance enabled =>
    simp only [Operation.handler, postMaintenance]
    split <;> simp [Ctx.setStatus, Ctx.setBody, Ctx.fresh]
  | _ => simp [Operation.isOrderOrKiosk] at hop

theorem app_error_shape (route : Handler) (ctx : Ctx) (s : Sys)
    (h : (route ctx s).thrown ≠ none ∨ (route ctx s).ctx.status < 400 ∨
      ∃ m st, (route ctx s).ctx.body = some (.error m st) ∧
        (st = none ∨ st = some (route ctx s).ctx.status)) :
    (app route ctx s).thrown = none ∧
    (400 ≤ (app route ctx s).ctx.status →
      ∃ m st, (app route ctx s).ctx.body = some (.error m st) ∧
        (st = none ∨ st = some (app route ctx s).ctx.status)) := by
  have herr : (errorMiddleware route ctx s).thrown = none ∧
      (400 ≤ (errorMiddleware route ctx s).ctx.status →
        ∃ m st, (errorMiddleware route ctx s).ctx.body = some (.error m st) ∧
          (st = none ∨ st = some (errorMiddleware route ctx s).ctx.status)) := by
    cases ht : (route ctx s).thrown with
    | some e =>
      constructor
      · simp [errorMiddleware, ht]
      · intro _
        simp only [errorMiddleware, ht]
        exact ⟨e.message, _, rfl, Or.inr (by simp [Ctx.setStatus, Ctx.setBody])⟩
    | none =>
      have he : errorMiddleware route ctx s = route ctx s := by
        simp [errorMiddleware, ht]
      rw [he]
      refine ⟨ht, fun h400 => ?_⟩
      rcases h with h1 | h2 | h3
      · exact absurd ht h1
      · omega
      · exact h3
  unfold app maintenanceMiddleware
  split
  · exact herr
  · split
    · refine ⟨rfl, fun _ => ⟨maintenanceMessage, some 503, rfl, Or.inr ?_⟩⟩
      simp [maintenanceResponse, Ctx.setStatus, Ctx.setBody]
    · simp only [herr.1]
      exact ⟨trivial, herr.2⟩

/-- C15 (amended): for every order, kiosk and maintenance operation run through the
middleware stack, a response with status 400 or above has a body `{error: {...}}`
with a message, and its `status` field, when present, equals the HTTP status; the
4xx bodies written by the order and kiosk handlers themselves carry no `status`
field. -/
theorem error_body_shape (op : Operation) (path : String) (s : Sys) :
    (app op.handler (Ctx.fresh path) s).thrown = none ∧
    (400 ≤ (app op.handler (Ctx.fresh path) s).ctx.status →
      ∃ m st, (app op.handler (Ctx.fresh path) s).ctx.body = some (.error m st) ∧
        (st = none ∨ st = some (app op.handler (Ctx.fresh path) s).ctx.status)) ∧
    (op.isOrderOrKiosk = true → (op.handler (Ctx.fresh path) s).thrown = none →
      400 ≤ (op.handler (Ctx.fresh path) s).ctx.status →
      ∃ m, (op.handler (Ctx.fresh path) s).ctx.body = some (.error m none)) := by
  have hshape : (op.handler (Ctx.fresh path) s).thrown ≠ none ∨
      (op.handler (Ctx.fresh path) s).ctx.status < 400 ∨
      ∃ m st, (op.handler (Ctx.fresh path) s).ctx.body = some (.error m st) ∧
        (st = none ∨ st = some (op.handler (Ctx.fresh path) s).ctx.status) := by
    cases hop : op.isOrderOrKiosk with
    | true =>
      rcases shape_order_or_kiosk op hop path s with h | h | ⟨m, h⟩
      · exact Or.inl h
      · exact Or.inr (Or.inl h)
      · exact Or.inr (Or.inr ⟨m, none, h, Or.inl rfl⟩)
    | false =>
      obtain ⟨-, h | ⟨m, h⟩⟩ := shape_maintenance op hop path s
      · exact Or.inr (Or.inl h)
      · exact Or.inr (Or.inr ⟨m, _, h, Or.inr rfl⟩)
  obtain ⟨h1, h2⟩ := app_error_shape op.handler (Ctx.fresh path) s hshape
  refine ⟨h1, h2, ?_⟩
  intro hop hthrown h400
  rcases shape_order_or_kiosk op hop path s with h | h | h
  · exact absurd hthrown h
  · omega
  · exact h

/-- C15 (as stated) fails: `POST /orders` with an empty body is answered with 400 and
an error body that has a message but no `status` field. -/
theorem error_body_status_counterexample :
    (app (Operation.createOrder 0 emptyOrderBody).handler (Ctx.fresh "/orders")
      (Sys.init sampleDb)).ctx.status = 400 ∧
    (app (Operation.createOrder 0 emptyOrderBody).handler (Ctx.fresh "/orders")
      (Sys.init sampleDb)).ctx.body.bind Body.errorMessage?
      = some "kiosk_id and items array are required" ∧
    (app (Operation.createOrder 0 emptyOrderBody).handler (Ctx.fresh "/orders")
      (Sys.init sampleDb)).ctx.body.bind Body.errorStatus? = none := by
  refine ⟨?_, ?_, ?_⟩ <;> decide

/-! ### Concrete instances, continued -/

/-- C11 at the body `{}` while the database is disconnected. -/
theorem updateOrder_rejects_iff_witness :
    parseInt10 "1" = some 1 ∧
    (((∃ m, updateOrder "1" emptyUpdateBody (Ctx.fresh "/orders/1") midSwitchState =
        { ctx := ((Ctx.fresh "/orders/1").setStatus 400).setBody (.error m none),
          sys := midSwitchState, thrown := none }) ↔
      ((emptyUpdateBody.status = none ∧ emptyUpdateBody.survey_response = none) ∨
       (∃ st, emptyUpdateBody.status = some st ∧
          st ≠ .str "pending" ∧ st ≠ .str "completed" ∧ st ≠ .str "canceled") ∨
       (∃ sr, emptyUpdateBody.survey_response = some sr ∧ sr ≠ .null ∧
          ∀ fields, sr ≠ .obj fields))) ∧
    ((emptyUpdateBody.status = none ∧ emptyUpdateBody.survey_response = none) →
      updateOrder "1" emptyUpdateBody (Ctx.fresh "/orders/1") midSwitchState =
        { ctx := ((Ctx.fresh "/orders/1").setStatus 400).setBody
            (.error "No fields to update" none),
          sys := midSwitchState, thrown := none })) :=
  ⟨by decide,
    updateOrder_rejects_iff "1" 1 emptyUpdateBody (Ctx.fresh "/orders/1") midSwitchState
      (by decide)⟩

theorem fifoDb_connected : query (Sys.init fifoDb) = .ok (Sys.init fifoDb).db := rfl

theorem fifoDb_kiosk : findKiosk (Sys.init fifoDb).db 1 = some sampleKiosk := rfl

/-- C12 at three pending orders created at 100, 200 and 300: the current order is the
one created at 100, and after it is completed the one created at 200. -/
theorem getKiosk_current_order_fifo_witness :
    parseInt10 "1" = some 1 ∧
    query (Sys.init fifoDb) = .ok (Sys.init fifoDb).db ∧
    findKiosk (Sys.init fifoDb).db 1 = some sampleKiosk ∧
    (∃ cur : Option OrderView,
      getKiosk "1" (Ctx.fresh "/kiosks/1") (Sys.init fifoDb) =
        { ctx := (Ctx.fresh "/kiosks/1").setBody (.kiosk sampleKiosk cur),
          sys := Sys.init fifoDb, thrown := none } ∧
      (cur = none ↔ ∀ o, ¬ InQueue (Sys.init fifoDb).db sampleKiosk o) ∧
      (∀ v, cur = some v →
        InQueue (Sys.init fifoDb).db sampleKiosk v.order ∧
        ∀ o, InQueue (Sys.init fifoDb).db sampleKiosk o →
          v.order.created_at ≤ o.created_at)) ∧
    ((getKiosk "1" (Ctx.fresh "/kiosks/1") (Sys.init fifoDb)).ctx.body.bind
      Body.currentOrder?).map (fun v => v.order.created_at) = some 100 ∧
    ((getKiosk "1" (Ctx.fresh "/kiosks/1")
        (updateOrder "1" completeBody (Ctx.fresh "/orders/1") (Sys.init fifoDb)).sys).ctx.body.bind
      Body.currentOrder?).map (fun v => v.order.created_at) = some 200 :=
  ⟨by decide, fifoDb_connected, fifoDb_kiosk,
    getKiosk_current_order_fifo "1" 1 (Ctx.fresh "/kiosks/1") (Sys.init fifoDb) sampleKiosk
      (by decide) fifoDb_connected fifoDb_kiosk,
    by decide, by decide⟩

/-- C13 at an order with a donut and an orange, seen from a kiosk of type `sweet`:
only the donut is attached. -/
theorem getKiosk_current_order_items_witness :
    parseInt10 "1" = some 1 ∧
    query (Sys.init fifoDb) = .ok (Sys.init fifoDb).db ∧
    findKiosk (Sys.init fifoDb).db 1 = some sampleKiosk ∧
    (∃ cur : Option OrderView,
      getKiosk "1" (Ctx.fresh "/kiosks/1") (Sys.init fifoDb) =
        { ctx := (Ctx.fresh "/kiosks/1").setBody (.kiosk sampleKiosk cur),
          sys := Sys.init fifoDb, thrown := none } ∧
      ∀ v, cur = some v →
        v.items ≠ [] ∧
        ∀ w, w ∈ v.items ↔
          ∃ oi ∈ (Sys.init fifoDb).db.order_items, ∃ i ∈ (Sys.init fifoDb).db.items,
            oi.order_id = v.order.id ∧ i.id = oi.item_id ∧ i.kiosk_type = sampleKiosk.type ∧
            w = { order_id := oi.order_id, item_id := oi.item_id,
                  customizations := oi.customizations, name := i.name,
                  description := i.description }) ∧
    ((getKiosk "1" (Ctx.fresh "/kiosks/1") (Sys.init fifoDb)).ctx.body.bind
      Body.currentOrder?).map (fun v => v.items.map (fun w => (w.order_id, w.item_id)))
      = some [(1, 1)] :=
  ⟨by decide, fifoDb_connected, fifoDb_kiosk,
    getKiosk_current_order_items "1" 1 (Ctx.fresh "/kiosks/1") (Sys.init fifoDb) sampleKiosk
      (by decide) fifoDb_connected fifoDb_kiosk,
    by decide⟩

theorem fullUpdateBody_built :
    buildOrderUpdate fullUpdateBody =
      .built [{ column := "status", placeholder := 1, cast := some "order_status" },
              { column := "survey_response", placeholder := 2, cast := none }]
        [.str "canceled", .obj [("stars", .num 5)]] := rfl

/-- C16 at a body with both fields and the id 7, which matches no row. -/
theorem buildOrderUpdate_binds_witness :
    buildOrderUpdate fullUpdateBody =
      .built [{ column := "status", placeholder := 1, cast := some "order_status" },
              { column := "survey_response", placeholder := 2, cast := none }]
        [.str "canceled", .obj [("stars", .num 5)]] ∧
    ([{ column := "status", placeholder := 1, cast := some "order_status" },
      { column := "survey_response", placeholder := 2, cast := none }] :
        List SetClause).map SetClause.column = ["status", "survey_response"] ∧
    ([Json.str "canceled", .obj [("stars", .num 5)]] ++ [Json.num 7])[(2 + 1) - 1]?
      = some (Json.num 7) ∧
    applySetClauses ([Json.str "canceled", .obj [("stars", .num 5)]] ++ [Json.num 7]) storedOrder
        [{ column := "status", placeholder := 1, cast := some "order_status" },
         { column := "survey_response", placeholder := 2, cast := none }] =
      .ok { storedOrder with status := .canceled,
                             survey_response := .obj [("stars", .num 5)] } ∧
    updateOrder "7" fullUpdateBody (Ctx.fresh "/orders/7") (Sys.init sampleDb) =
      { ctx := ((Ctx.fresh "/orders/7").setStatus 404).setBody (.error "Order not found" none),
        sys := Sys.init sampleDb, thrown := none } ∧
    renderOrderUpdate
        [{ column := "status", placeholder := 1, cast := some "order_status" },
         { column := "survey_response", placeholder := 2, cast := none }]
        [.str "canceled", .obj [("stars", .num 5)]] =
      "\n    UPDATE orders\n    SET status = $1::order_status, survey_response = $2" ++
      "\n    WHERE id = $3\n    RETURNING *\n  " :=
  ⟨fullUpdateBody_built,
    (buildOrderUpdate_binds fullUpdateBody _ _ 7 fullUpdateBody_built).1,
    (buildOrderUpdate_binds fullUpdateBody _ _ 7 fullUpdateBody_built).2.2.1,
    (buildOrderUpdate_binds fullUpdateBody _ _ 7 fullUpdateBody_built).2.2.2.2.1 storedOrder,
    (buildOrderUpdate_binds fullUpdateBody _ _ 7 fullUpdateBody_built).2.2.2.2.2 "7"
      (Ctx.fresh "/orders/7") (Sys.init sampleDb) (by decide) rfl
      (by
        intro o ho
        simp [Sys.init, sampleDb] at ho
        rw [ho]
        decide),
    by decide⟩

end Jpmp
